import Mathlib

/-!
A shallow embedding of `lib/VM/JSLib/HermesBuiltin.cpp`: the native built-in
operations of the Hermes VM (template-object construction and caching,
`copyDataProperties`, rest/spread argument handling, fast `apply`,
`exportAll`, the generator-delegation flag, and defensive helpers).

Machine values: Hermes `HermesValue` doubles are modelled as `Int` (the
integral doubles the claims exercise); `uint32_t` conversions are explicit
`% 2^32`.  Object identity is modelled by a heap: object references are
indices into a list of object records, and allocation appends.  Fallible
operations return `Except JSError JSValue` paired with the updated runtime
state, mirroring `CallResult<HermesValue>` plus the runtime's thrown-value
state; a raised error still carries the (possibly partially mutated) state,
because partial mutation is observable ECMAScript behavior.

External collaborators (per the repository's layering): the iterator
protocol (`getIterator` / `iteratorStep`) is modelled by the sequence of
step outcomes the iterator would produce; the call/construct machinery
behind `Callable::call` / `Callable::construct` is modelled by returning
the fully prepared invocation record.
-/

namespace HermesVM

/-- The tagged value union (`HermesValue`): undefined, null, boolean, number
(integral doubles modelled as `Int`), string, or object reference. -/
inductive JSValue where
  | undefined : JSValue
  | null : JSValue
  | bool (b : Bool) : JSValue
  | num (n : Int) : JSValue
  | str (s : String) : JSValue
  | obj (ref : Nat) : JSValue
deriving DecidableEq, Repr

/-- A raised error: either a TypeError raised by this layer (with message),
or an arbitrary thrown value propagated from re-entrant user code. -/
inductive JSError where
  | typeError (msg : String) : JSError
  | thrown (v : JSValue) : JSError
deriving DecidableEq, Repr

namespace JSValue

def isNumber : JSValue → Bool
  | num _ => true
  | _ => false

def isBool : JSValue → Bool
  | bool _ => true
  | _ => false

def isObject : JSValue → Bool
  | obj _ => true
  | _ => false

def isNull : JSValue → Bool
  | null => true
  | _ => false

def isUndefined : JSValue → Bool
  | undefined => true
  | _ => false

/-- `HermesValue::getNumber`: defined only on numbers (asserted in the C++);
we return 0 on other tags, matching the checked precondition. -/
def getNumber : JSValue → Int
  | num n => n
  | _ => 0

/-- `HermesValue::getBool`: defined only on booleans (asserted in the C++). -/
def getBool : JSValue → Bool
  | bool b => b
  | _ => false

/-- Crude stringification used only to build TypeError messages
(`raiseTypeErrorForValue`). -/
def toDisplay : JSValue → String
  | undefined => "undefined"
  | null => "null"
  | bool true => "true"
  | bool false => "false"
  | num n => toString n
  | str s => s
  | obj r => "[object " ++ toString r ++ "]"

end JSValue

/-- Property flags of a data property: {writable, enumerable, configurable}. -/
structure PropFlags where
  writable : Bool
  enumerable : Bool
  configurable : Bool
deriving DecidableEq, Repr

/-- `DefinePropertyFlags::getDefaultNewPropertyFlags()`: all of writable,
enumerable, configurable set to true. -/
def defaultNewPropFlags : PropFlags := ⟨true, true, true⟩

/-- The flags used for template-object elements in
`hermesBuiltinGetTemplateObject` (`dpf`): writable=0, configurable=0,
enumerable=1. -/
def constElementFlags : PropFlags := ⟨false, true, false⟩

/-- The flags used for the `raw` property (`constantPF`): writable=0,
configurable=0, enumerable=0. -/
def rawPropFlags : PropFlags := ⟨false, false, false⟩

/-- The flags `hermesBuiltinExportAll` uses (`dpf`): default new-property
flags with configurable forced to 0. -/
def exportPropFlags : PropFlags := ⟨true, true, false⟩

/-- One heap object: indexed (array-storage) properties kept sorted by
index ascending, named properties in hidden-class definition order, the
array `length` slot together with its property flags, extensibility, and
the object-kind bits the builtins test (`JSArray`, `Callable`,
`GeneratorInnerFunction`) plus the generator's delegation flag. -/
structure ObjData where
  indexedProps : List (Nat × PropFlags × JSValue) := []
  namedProps : List (String × PropFlags × JSValue) := []
  lengthValue : Nat := 0
  lengthWritable : Bool := true
  lengthConfigurable : Bool := false
  extensible : Bool := true
  isArray : Bool := false
  isCallable : Bool := false
  isGenerator : Bool := false
  isDelegated : Bool := false
deriving DecidableEq, Repr

/-- Insert or update an indexed property, keeping the list sorted by index
ascending (Hermes array storage order). -/
def setIndexed (props : List (Nat × PropFlags × JSValue)) (i : Nat)
    (f : PropFlags) (v : JSValue) : List (Nat × PropFlags × JSValue) :=
  match props with
  | [] => [(i, f, v)]
  | (j, g, w) :: rest =>
    if i < j then (i, f, v) :: (j, g, w) :: rest
    else if i = j then (i, f, v) :: rest
    else (j, g, w) :: setIndexed rest i f v

/-- Insert or update a named property; a new name is appended, preserving
hidden-class definition order. -/
def setNamed (props : List (String × PropFlags × JSValue)) (name : String)
    (f : PropFlags) (v : JSValue) : List (String × PropFlags × JSValue) :=
  match props with
  | [] => [(name, f, v)]
  | (m, g, w) :: rest =>
    if name = m then (name, f, v) :: rest
    else (m, g, w) :: setNamed rest name f v

namespace ObjData

/-- `JSObject::defineOwnComputedPrimitive` with an index key on a plain
object/array: store the data property; an array's `length` grows to cover
the index (JSArray indexed define semantics). -/
def defineIndexed (o : ObjData) (i : Nat) (f : PropFlags) (v : JSValue) :
    ObjData :=
  { o with
    indexedProps := setIndexed o.indexedProps i f v
    lengthValue := if o.isArray && o.lengthValue ≤ i then i + 1 else o.lengthValue }

/-- `JSObject::defineOwnProperty` with a named key on a plain object. -/
def defineNamed (o : ObjData) (name : String) (f : PropFlags) (v : JSValue) :
    ObjData :=
  { o with namedProps := setNamed o.namedProps name f v }

/-- `JSObject::getOwnIndexed` / `JSArray::at`: the value stored at index
`i`, or undefined when absent. -/
def getOwnIndexed (o : ObjData) (i : Nat) : JSValue :=
  match o.indexedProps.find? (fun e => e.1 == i) with
  | some e => e.2.2
  | none => JSValue.undefined

/-- Whether the object has an own indexed property at `i`. -/
def hasIndexed (o : ObjData) (i : Nat) : Bool :=
  (o.indexedProps.find? (fun e => e.1 == i)).isSome

/-- Whether the object has an own named property `name`. -/
def hasNamed (o : ObjData) (name : String) : Bool :=
  (o.namedProps.find? (fun e => e.1 == name)).isSome

/-- The value stored in an own named data property (the slot read behind
`getNamedPropertyValue_RJS` / `getNamedSlotValue` for data properties),
or undefined when absent. -/
def getNamedValue (o : ObjData) (name : String) : JSValue :=
  match o.namedProps.find? (fun e => e.1 == name) with
  | some e => e.2.2
  | none => JSValue.undefined

/-- The `readOnlyDPF` application: make the `length` property
non-writable and non-configurable (value untouched). -/
def makeLengthReadOnly (o : ObjData) : ObjData :=
  { o with lengthWritable := false, lengthConfigurable := false }

/-- `JSObject::preventExtensions`. -/
def preventExtensionsOf (o : ObjData) : ObjData :=
  { o with extensible := false }

end ObjData

/-- The runtime state the builtins touch: the object heap (references are
indices, allocation appends) and the per-module template-object cache,
an association from (runtime module, call-site id) to an object reference. -/
structure RTState where
  objects : List ObjData := []
  templateCache : List ((Nat × Nat) × Nat) := []
deriving DecidableEq, Repr

namespace RTState

def getObj (st : RTState) (r : Nat) : ObjData :=
  st.objects.getD r {}

def setObj (st : RTState) (r : Nat) (o : ObjData) : RTState :=
  { st with objects := st.objects.set r o }

/-- Allocate a fresh object; the reference is the previous heap size. -/
def alloc (st : RTState) (o : ObjData) : Nat × RTState :=
  (st.objects.length, { st with objects := st.objects ++ [o] })

/-- `RuntimeModule::findCachedTemplateObject`. -/
def findCachedTemplateObject (st : RTState) (m id : Nat) : Option Nat :=
  (st.templateCache.find? (fun e => e.1 == (m, id))).map (·.2)

/-- `RuntimeModule::cacheTemplateObject`. -/
def cacheTemplateObject (st : RTState) (m id r : Nat) : RTState :=
  { st with templateCache := ((m, id), r) :: st.templateCache }

/-- Update object `r` in place. -/
def updateObj (st : RTState) (r : Nat) (f : ObjData → ObjData) : RTState :=
  st.setObj r (f (st.getObj r))

end RTState

/-- `JSArray::create(runtime, len, capacity)`: a fresh array whose `length`
slot is `len` (writable, non-enumerable, non-configurable) with empty
storage. -/
def JSArrayCreate (st : RTState) (len : Nat) : Nat × RTState :=
  st.alloc { lengthValue := len, isArray := true }

/-- `NativeArgs::getArg(i)`: indexing past the argument count yields
undefined, never an error. -/
def getArg (args : List JSValue) (i : Nat) : JSValue :=
  args.getD i JSValue.undefined

/-- `truncateToUInt32` (= ECMAScript ToUint32 on integral doubles):
truncate and wrap into [0, 2^32). -/
def truncateToUInt32 (n : Int) : Nat :=
  (n % (2 ^ 32 : Int)).toNat

/-- Whether a named key is one of the runtime-internal hidden property
symbols (`InternalProperty::isInternal`); modelled as a reserved name
range. -/
def isInternalName (s : String) : Bool :=
  s.startsWith "#internal"

/-- The reserved name of the default export
(`Predefined::defaultExport`, spelled `?default` in Hermes). -/
def defaultExportName : String := "?default"

/-! ### `hermesBuiltinGetTemplateObject` -/

/-- The per-element define loop of `hermesBuiltinGetTemplateObject`: for
each `i` below the remaining count, define the cooked string
`args[cookedBegin + i]` at index `i` on the template object and the raw
string `args[2 + i]` at index `i` on the raw object, both with
writable=0, configurable=0, enumerable=1. -/
def setTemplateElements (tmplRef rawRef : Nat) (args : List JSValue)
    (cookedBegin : Nat) : RTState → Nat → Nat → RTState
  | st, _, 0 => st
  | st, i, k + 1 =>
    let st1 := st.updateObj tmplRef
      (fun o => o.defineIndexed i constElementFlags (getArg args (cookedBegin + i)))
    let st2 := st1.updateObj rawRef
      (fun o => o.defineIndexed i constElementFlags (getArg args (2 + i)))
    setTemplateElements tmplRef rawRef args cookedBegin st2 (i + 1) k

/-- The construction path of `hermesBuiltinGetTemplateObject`, reached on
a cache miss after the fixed-argument checks: validate the raw/cooked
pairing, build the raw array and the template object, freeze both, cache
the template object under `(m, templateObjID)` and return it. -/
def constructTemplateObject (st : RTState) (m templateObjID : Nat)
    (args : List JSValue) : Except JSError JSValue × RTState :=
  let dup := (getArg args 1).getBool
  if !dup && args.length % 2 == 1 then
    (.error (.typeError "There must be the same number of raw and cooked strings."), st)
  else
    let count := if dup then args.length - 2 else args.length / 2 - 1
    let (rawRef, st1) := JSArrayCreate st count
    let (tmplRef, st2) := JSArrayCreate st1 count
    let cookedBegin := if dup then 2 else 2 + count
    let st3 := setTemplateElements tmplRef rawRef args cookedBegin st2 0 count
    let st4 := st3.updateObj rawRef (fun o => o.makeLengthReadOnly.preventExtensionsOf)
    let st5 := st4.updateObj tmplRef
      (fun o => o.defineNamed "raw" rawPropFlags (.obj rawRef))
    let st6 := st5.updateObj tmplRef (fun o => o.makeLengthReadOnly.preventExtensionsOf)
    let st7 := st6.cacheTemplateObject m templateObjID tmplRef
    (.ok (.obj tmplRef), st7)

/-- `hermesBuiltinGetTemplateObject`:  check the fixed arguments (at least
three, id a number, dup flag a bool), resolve the caller's runtime module
(`callerModule`, from the saved code block; `none` when called from native
code), consult the per-module template cache, and otherwise construct,
freeze and cache the template object. -/
def hermesBuiltinGetTemplateObject (st : RTState) (callerModule : Option Nat)
    (args : List JSValue) : Except JSError JSValue × RTState :=
  if args.length < 3 then
    (.error (.typeError "At least three arguments expected"), st)
  else if !(getArg args 0).isNumber then
    (.error (.typeError "First argument should be a number"), st)
  else if !(getArg args 1).isBool then
    (.error (.typeError "Second argument should be a bool"), st)
  else
    match callerModule with
    | none => (.error (.typeError "Cannot be called from native code"), st)
    | some m =>
      let templateObjID := truncateToUInt32 (getArg args 0).getNumber
      match st.findCachedTemplateObject m templateObjID with
      | some cached => (.ok (.obj cached), st)
      | none => constructTemplateObject st m templateObjID args

/-! ### `hermesBuiltinGeneratorSetDelegated` -/

/-- `dyn_vmcast_or_null<GeneratorInnerFunction>` applied to the caller's
callee closure: the generator activation's reference, or `none`. -/
def dynVmcastGeneratorInner (st : RTState) (v : Option JSValue) : Option Nat :=
  match v with
  | some (.obj r) => if (st.getObj r).isGenerator then some r else none
  | _ => none

/-- `hermesBuiltinGeneratorSetDelegated`: `callerCallee` is the callee
closure of the immediate caller frame
(`getCurrentFrame().getPreviousFrame().getCalleeClosure()`); if it is not
a `GeneratorInnerFunction`, raise a TypeError, else set its delegation
flag and return undefined. -/
def hermesBuiltinGeneratorSetDelegated (st : RTState)
    (callerCallee : Option JSValue) : Except JSError JSValue × RTState :=
  match dynVmcastGeneratorInner st callerCallee with
  | none =>
    (.error (.typeError "generatorSetDelegated can only be called as part of yield*"), st)
  | some r =>
    (.ok .undefined, st.updateObj r (fun o => { o with isDelegated := true }))

/-! ### `hermesBuiltinCopyDataProperties` -/

/-- Run a callback over a list, stopping early when it reports `false`
(the shape shared by `JSObject::forEachOwnPropertyWhile` and
`HiddenClass::forEachPropertyWhile`). -/
def forEachWhile {σ α : Type} (f : σ → α → Bool × σ) : σ → List α → Bool × σ
  | s, [] => (true, s)
  | s, a :: rest =>
    match f s a with
    | (true, s') => forEachWhile f s' rest
    | (false, s') => (false, s')

/-- `JSObject::forEachOwnPropertyWhile`: visit the indexed properties in
ascending order, then the named properties in definition order, with
short-circuit on a callback returning `false`. -/
def forEachOwnPropertyWhile (o : ObjData) {σ : Type}
    (indexedCB : σ → Nat → PropFlags → JSValue → Bool × σ)
    (namedCB : σ → String → PropFlags → JSValue → Bool × σ)
    (s : σ) : Bool × σ :=
  match forEachWhile (fun s e => indexedCB s e.1 e.2.1 e.2.2) s o.indexedProps with
  | (true, s1) => forEachWhile (fun s e => namedCB s e.1 e.2.1 e.2.2) s1 o.namedProps
  | (false, s1) => (false, s1)

/-- `toObject` on a value already known not to be null/undefined: identity
on objects, and a fresh (own-property-free) wrapper allocation on the
remaining primitives. -/
def toObject (st : RTState) (v : JSValue) : Nat × RTState :=
  match v with
  | .obj r => (r, st)
  | _ => st.alloc {}

/-- The indexed-property visitor lambda (`indexedCB`) of
`hermesBuiltinCopyDataProperties`: skip non-enumerable properties and own
indexed keys of the exclusion object, otherwise read the value from the
source and define it on the target with default new-property flags. -/
def copyDataIndexedCB (targetRef sourceRef : Nat) (excludedRef : Option Nat)
    (st1 : RTState) (index : Nat) (flags : PropFlags) (_ : JSValue) :
    Bool × RTState :=
  if !flags.enumerable then (true, st1)
  else
    let skip :=
      match excludedRef with
      | some x => (st1.getObj x).hasIndexed index
      | none => false
    if skip then (true, st1)
    else
      let value := (st1.getObj sourceRef).getOwnIndexed index
      (true, st1.updateObj targetRef
        (fun o => o.defineIndexed index defaultNewPropFlags value))

/-- The named-property visitor lambda (`namedCB`) of
`hermesBuiltinCopyDataProperties`: additionally skips runtime-internal
property names. -/
def copyDataNamedCB (targetRef sourceRef : Nat) (excludedRef : Option Nat)
    (st1 : RTState) (sym : String) (flags : PropFlags) (_ : JSValue) :
    Bool × RTState :=
  if !flags.enumerable then (true, st1)
  else if isInternalName sym then (true, st1)
  else
    let skip :=
      match excludedRef with
      | some x => (st1.getObj x).hasNamed sym
      | none => false
    if skip then (true, st1)
    else
      let value := (st1.getObj sourceRef).getNamedValue sym
      (true, st1.updateObj targetRef
        (fun o => o.defineNamed sym defaultNewPropFlags value))

/-- `hermesBuiltinCopyDataProperties(target, source, excludedItems)`: a
non-object target is tolerated by returning undefined; a null/undefined
source returns the target unchanged; otherwise every own enumerable
property of the source (indexed ascending, then named in definition
order, internal names skipped) that is not an own key of `excludedItems`
is read and defined on the target with default new-property flags, and
the target is returned.  Properties are data properties in this model, so
the callbacks never abort (`(false, ·)` corresponds to a getter or
proxied exclusion object raising). -/
def hermesBuiltinCopyDataProperties (st : RTState) (args : List JSValue) :
    Except JSError JSValue × RTState :=
  match getArg args 0 with
  | .obj targetRef =>
    let sourceV := getArg args 1
    if sourceV.isNull || sourceV.isUndefined then (.ok (.obj targetRef), st)
    else
      let (sourceRef, st0) := toObject st sourceV
      let excludedRef : Option Nat :=
        match getArg args 2 with
        | .obj r => some r
        | _ => none
      match forEachOwnPropertyWhile (st0.getObj sourceRef)
          (copyDataIndexedCB targetRef sourceRef excludedRef)
          (copyDataNamedCB targetRef sourceRef excludedRef) st0 with
      | (true, st2) => (.ok (.obj targetRef), st2)
      | (false, st2) => (.error (.thrown JSValue.undefined), st2)
  | _ => (.ok .undefined, st)

/-! ### `hermesBuiltinCopyRestArgs` -/

/-- The element-copy loop of `hermesBuiltinCopyRestArgs`: element `i` of
the result array receives the caller's argument at index `from0`, with
both indices advancing (`unsafeSetExistingElementAt` stores ordinary
array elements, which carry default flags). -/
def fillRestArgs (arrRef : Nat) (cargs : List JSValue) :
    RTState → Nat → Nat → Nat → RTState
  | st, _, _, 0 => st
  | st, i, from0, k + 1 =>
    fillRestArgs arrRef cargs
      (st.updateObj arrRef
        (fun o => o.defineIndexed i defaultNewPropFlags (getArg cargs from0)))
      (i + 1) (from0 + 1) k

/-- `hermesBuiltinCopyRestArgs(from)`: `callerArgs` is the caller frame's
argument vector (`none` when no caller frame exists).  A missing caller
frame or a non-number `from` returns undefined; otherwise a fresh array
of length `max(argCount - from, 0)` is filled with the caller's arguments
`[from, argCount)` in order, `from` being truncated to `uint32`. -/
def hermesBuiltinCopyRestArgs (st : RTState) (callerArgs : Option (List JSValue))
    (args : List JSValue) : Except JSError JSValue × RTState :=
  match callerArgs with
  | none => (.ok .undefined, st)
  | some cargs =>
    if !(getArg args 0).isNumber then (.ok .undefined, st)
    else
      let from0 := truncateToUInt32 (getArg args 0).getNumber
      let argCount := cargs.length
      let length := if from0 ≤ argCount then argCount - from0 else 0
      let (arrRef, st1) := JSArrayCreate st length
      let st2 := fillRestArgs arrRef cargs st1 0 from0 length
      (.ok (.obj arrRef), st2)

/-! ### `hermesBuiltinArraySpread` -/

/-- One outcome of advancing the source iterator (the iterator protocol
is an external collaborator; a step either yields the step's `value` or
raises — a raise covers `iteratorStep` itself and the read of the step's
`value` property, and a raising `getIterator` is a raise on the first
step). -/
inductive IterStep where
  | yieldVal (v : JSValue) : IterStep
  | raise (e : JSError) : IterStep
deriving DecidableEq, Repr

/-- `JSArray::putComputed_RJS` on a plain array with an integral numeric
key: a non-negative key stores into indexed storage with default flags
(growing `length`); a negative key becomes a named property. -/
def putComputedNum (st : RTState) (r : Nat) (i : Int) (v : JSValue) : RTState :=
  if 0 ≤ i then
    st.updateObj r (fun o => o.defineIndexed i.toNat defaultNewPropFlags v)
  else
    st.updateObj r (fun o => o.defineNamed (toString i) defaultNewPropFlags v)

/-- The iteration loop of `hermesBuiltinArraySpread`: advance the
iterator; on exhaustion return the current `nextIndex`; on a raise
propagate it, keeping every element already placed; otherwise put the
yielded value at `nextIndex` and continue with `nextIndex + 1`. -/
def arraySpreadLoop (t : Nat) : RTState → Int → List IterStep →
    Except JSError JSValue × RTState
  | st, nextIndex, [] => (.ok (.num nextIndex), st)
  | st, _, .raise e :: _ => (.error e, st)
  | st, nextIndex, .yieldVal v :: rest =>
    arraySpreadLoop t (putComputedNum st t nextIndex v) (nextIndex + 1) rest

/-- `hermesBuiltinArraySpread(target, source, nextIndex)`: the target must
be an array (else TypeError); `iter` is the outcome sequence of the
iterator obtained from the source. -/
def hermesBuiltinArraySpread (st : RTState) (iter : List IterStep)
    (args : List JSValue) : Except JSError JSValue × RTState :=
  match getArg args 0 with
  | .obj t =>
    if (st.getObj t).isArray then
      arraySpreadLoop t st (getArg args 2).getNumber iter
    else
      (.error (.typeError "HermesBuiltin.arraySpread requires an array target"), st)
  | _ =>
    (.error (.typeError "HermesBuiltin.arraySpread requires an array target"), st)

/-! ### `hermesBuiltinApply` -/

/-- The call frame `hermesBuiltinApply` prepares for the external
call/construct machinery: the dispatch mode, the callee, the bound
`this`, and the positionally copied arguments. -/
structure Invocation where
  isConstruct : Bool
  fn : Nat
  thisVal : JSValue
  callArgs : List JSValue
deriving DecidableEq, Repr

/-- `hermesBuiltinApply(fn, argArray, thisVal?)`: a non-callable `fn` or a
non-array `argArray` raises a TypeError before anything is invoked.  With
exactly two arguments this is a construct call: a fresh `this` is created
for `fn` (`Callable::createThisForConstruct`, modelled as a fresh
allocation) and construct semantics are invoked; with a third argument it
is an ordinary call with that `this`.  `argArray.length` is read from the
internal length slot, and elements are copied positionally (holes read as
undefined); the invocation itself (`Callable::construct` /
`Callable::call`) is the external collaborator receiving the returned
record. -/
def hermesBuiltinApply (st : RTState) (args : List JSValue) :
    Except JSError Invocation × RTState :=
  let fnOk : Option Nat :=
    match getArg args 0 with
    | .obj f => if (st.getObj f).isCallable then some f else none
    | _ => none
  match fnOk with
  | none =>
    (.error (.typeError ((getArg args 0).toDisplay ++ " is not a function")), st)
  | some f =>
    let arrOk : Option Nat :=
      match getArg args 1 with
      | .obj a => if (st.getObj a).isArray then some a else none
      | _ => none
    match arrOk with
    | none => (.error (.typeError "args must be an array"), st)
    | some a =>
      let len := (st.getObj a).lengthValue
      let callArgs := (List.range len).map (fun i => (st.getObj a).getOwnIndexed i)
      if args.length = 2 then
        let (thisRef, st1) := st.alloc {}
        (.ok ⟨true, f, .obj thisRef, callArgs⟩, st1)
      else
        (.ok ⟨false, f, getArg args 2, callArgs⟩, st)

/-! ### `hermesBuiltinExportAll` -/

/-- The visitor lambda of `hermesBuiltinExportAll`: skip non-enumerable
properties and the reserved default-export name, otherwise read the
value's slot and define it on `exports`, non-configurable. -/
def exportAllCB (exportsRef sourceRef : Nat) (st1 : RTState) (id : String)
    (flags : PropFlags) (_ : JSValue) : Bool × RTState :=
  if !flags.enumerable then (true, st1)
  else if id = defaultExportName then (true, st1)
  else
    let value := (st1.getObj sourceRef).getNamedValue id
    (true, st1.updateObj exportsRef
      (fun o => o.defineNamed id exportPropFlags value))

/-- `hermesBuiltinExportAll(exports, source)`: both arguments must be
objects (exports checked first).  The source's named properties are
visited in hidden-class definition order; each enumerable one whose name
is not the reserved default-export name is read and defined on `exports`
with default new-property flags except configurable=0.  Returns
undefined.  (Values are data properties here, so the visitor never
aborts.) -/
def hermesBuiltinExportAll (st : RTState) (args : List JSValue) :
    Except JSError JSValue × RTState :=
  match getArg args 0 with
  | .obj exportsRef =>
    match getArg args 1 with
    | .obj sourceRef =>
      match forEachWhile
          (fun s e => exportAllCB exportsRef sourceRef s e.1 e.2.1 e.2.2) st
          ((st.getObj sourceRef).namedProps) with
      | (true, st2) => (.ok .undefined, st2)
      | (false, st2) => (.error (.thrown JSValue.undefined), st2)
    | _ => (.error (.typeError "exportAll() source argument must be object"), st)
  | _ => (.error (.typeError "exportAll() exports argument must be object"), st)

/-! ## Specification-side reference definitions

These definitions restate, in the spec's own words, what the operations
above are claimed to do; the theorems below prove the translated code
equal to them. -/

/-- The effect of placing `vs` one by one at consecutive indices starting
at `nI` (the mutation prefix `arraySpread` leaves behind). -/
def spreadPlace (t : Nat) : RTState → Int → List JSValue → RTState
  | st, _, [] => st
  | st, nI, v :: vs => spreadPlace t (putComputedNum st t nI v) (nI + 1) vs

/-- The exclusion object denoted by the third argument of
`copyDataProperties`: the object it references, or none. -/
def excludedOf (st : RTState) (v : JSValue) : Option ObjData :=
  match v with
  | .obj x => some (st.getObj x)
  | _ => none

/-- Whether the exclusion object (when present) has `i` as an own indexed
key. -/
def excludesIdx (exc : Option ObjData) (i : Nat) : Bool :=
  match exc with
  | some x => x.hasIndexed i
  | none => false

/-- Whether the exclusion object (when present) has `s` as an own named
key. -/
def excludesName (exc : Option ObjData) (s : String) : Bool :=
  match exc with
  | some x => x.hasNamed s
  | none => false

/-- The (key, value) list `copyDataProperties` copies, as the spec words
it: the source's own enumerable properties, indexed (ascending storage
order) then named (definition order), internal names and own keys of the
exclusion object skipped, each value read from the source. -/
def copiedPairs (source : ObjData) (exc : Option ObjData) :
    List ((Nat ⊕ String) × JSValue) :=
  ((source.indexedProps.filter
      (fun e => e.2.1.enumerable && !excludesIdx exc e.1)).map
    (fun e => (Sum.inl e.1, source.getOwnIndexed e.1)))
  ++ ((source.namedProps.filter (fun e => e.2.1.enumerable &&
        !isInternalName e.1 && !excludesName exc e.1)).map
    (fun e => (Sum.inr e.1, source.getNamedValue e.1)))

/-- Define each (key, value) pair on the target with default new-property
flags (writable, enumerable, configurable all true). -/
def definePairs (targetRef : Nat) :
    RTState → List ((Nat ⊕ String) × JSValue) → RTState
  | st, [] => st
  | st, (Sum.inl i, v) :: rest =>
    definePairs targetRef
      (st.updateObj targetRef (fun o => o.defineIndexed i defaultNewPropFlags v))
      rest
  | st, (Sum.inr s, v) :: rest =>
    definePairs targetRef
      (st.updateObj targetRef (fun o => o.defineNamed s defaultNewPropFlags v))
      rest

/-- The (name, value) list `exportAll` copies, as the spec words it: the
source's own named enumerable properties in definition order, the
reserved default-export name skipped. -/
def exportedPairs (source : ObjData) : List (String × JSValue) :=
  (source.namedProps.filter (fun e => e.2.1.enumerable &&
      !(e.1 == defaultExportName))).map
    (fun e => (e.1, source.getNamedValue e.1))

/-- Define each (name, value) pair on `exports` with default new-property
flags except configurable=0. -/
def defineExports (exportsRef : Nat) :
    RTState → List (String × JSValue) → RTState
  | st, [] => st
  | st, (s, v) :: rest =>
    defineExports exportsRef
      (st.updateObj exportsRef (fun o => o.defineNamed s exportPropFlags v))
      rest

/-! ## Concrete inputs used by the witnesses -/

/-- Template-literal call: id 0, dup, raw string "a". -/
def tmplArgsA : List JSValue := [.num 0, .bool true, .str "a"]

/-- Same call-site id 0 with different literal arguments. -/
def tmplArgsB : List JSValue := [.num 0, .bool true, .str "b", .str "c"]

/-- A different call-site id 1. -/
def tmplArgsC : List JSValue := [.num 1, .bool true, .str "d"]

/-- The state after the first (constructing) call for id 0. -/
def tmplStateA : RTState :=
  (hermesBuiltinGetTemplateObject {} (some 0) tmplArgsA).2

/-- The state after additionally constructing id 1. -/
def tmplStateC : RTState :=
  (hermesBuiltinGetTemplateObject tmplStateA (some 0) tmplArgsC).2

/-- A dup-unset call: id 5, raw string "r0", cooked string "c0". -/
def tmplArgsD : List JSValue := [.num 5, .bool false, .str "r0", .str "c0"]

/-- A dup-unset call with an odd trailing-argument count. -/
def tmplArgsE : List JSValue := [.num 6, .bool false, .str "r0"]

/-- The claim's `copyDataProperties` example: object 0 is the target `{}`,
object 1 the source `{a:1, b:2, c:3}`, object 2 the exclusion `{b:1}`. -/
def cdpExampleState : RTState :=
  { objects :=
      [ {},
        { namedProps := [("a", defaultNewPropFlags, .num 1),
                         ("b", defaultNewPropFlags, .num 2),
                         ("c", defaultNewPropFlags, .num 3)] },
        { namedProps := [("b", defaultNewPropFlags, .num 1)] } ] }

/-- The claim's `exportAll` example: object 0 is `exports = {}`, object 1
the source `{default:1, x:2, y:3}` with `y` non-enumerable. -/
def exportExampleState : RTState :=
  { objects :=
      [ {},
        { namedProps := [(defaultExportName, defaultNewPropFlags, .num 1),
                         ("x", defaultNewPropFlags, .num 2),
                         ("y", ⟨true, false, true⟩, .num 3)] } ] }

/-- A heap with a callable at 0 and the array `[1, 2, 3]` at 1, for the
`apply` witness. -/
def applyExampleState : RTState :=
  { objects :=
      [ { isCallable := true },
        { isArray := true, lengthValue := 3,
          indexedProps := [(0, defaultNewPropFlags, .num 1),
                           (1, defaultNewPropFlags, .num 2),
                           (2, defaultNewPropFlags, .num 3)] } ] }

/-! ## Heap plumbing lemmas -/

namespace RTState

theorem getObj_setObj_self (st : RTState) (r : Nat) (o : ObjData)
    (h : r < st.objects.length) : (st.setObj r o).getObj r = o := by
  simp [getObj, setObj, List.getD_eq_getElem?_getD, List.getElem?_set_self h]

theorem getObj_setObj_ne (st : RTState) {r r' : Nat} (o : ObjData)
    (h : r' ≠ r) : (st.setObj r o).getObj r' = st.getObj r' := by
  simp [getObj, setObj, List.getD_eq_getElem?_getD,
    List.getElem?_set_ne (Ne.symm h)]

theorem objects_setObj_length (st : RTState) (r : Nat) (o : ObjData) :
    (st.setObj r o).objects.length = st.objects.length :=
  List.length_set st.objects r o

theorem templateCache_setObj (st : RTState) (r : Nat) (o : ObjData) :
    (st.setObj r o).templateCache = st.templateCache := rfl

theorem getObj_updateObj_self (st : RTState) (r : Nat) (f : ObjData → ObjData)
    (h : r < st.objects.length) : (st.updateObj r f).getObj r = f (st.getObj r) :=
  getObj_setObj_self st r _ h

theorem getObj_updateObj_ne (st : RTState) {r r' : Nat} (f : ObjData → ObjData)
    (h : r' ≠ r) : (st.updateObj r f).getObj r' = st.getObj r' :=
  getObj_setObj_ne st _ h

theorem objects_updateObj_length (st : RTState) (r : Nat) (f : ObjData → ObjData) :
    (st.updateObj r f).objects.length = st.objects.length :=
  objects_setObj_length st r _

theorem templateCache_updateObj (st : RTState) (r : Nat) (f : ObjData → ObjData) :
    (st.updateObj r f).templateCache = st.templateCache := rfl

theorem getObj_alloc_self (st : RTState) (o : ObjData) :
    ((st.alloc o).2).getObj st.objects.length = o := by
  simp [alloc, getObj, List.getD_eq_getElem?_getD]

theorem getObj_alloc_lt (st : RTState) (o : ObjData) {r : Nat}
    (h : r < st.objects.length) : ((st.alloc o).2).getObj r = st.getObj r := by
  simp [alloc, getObj, List.getD_eq_getElem?_getD, List.getElem?_append, h]

theorem objects_alloc_length (st : RTState) (o : ObjData) :
    ((st.alloc o).2).objects.length = st.objects.length + 1 := by
  simp [alloc]

theorem templateCache_alloc (st : RTState) (o : ObjData) :
    ((st.alloc o).2).templateCache = st.templateCache := rfl

theorem findCached_cacheTemplateObject_self (st : RTState) (m id r : Nat) :
    (st.cacheTemplateObject m id r).findCachedTemplateObject m id = some r := by
  simp [findCachedTemplateObject, cacheTemplateObject, List.find?]

theorem findCached_cacheTemplateObject_ne (st : RTState) (m id r m' id' : Nat)
    (h : (m', id') ≠ (m, id)) :
    (st.cacheTemplateObject m id r).findCachedTemplateObject m' id' =
      st.findCachedTemplateObject m' id' := by
  have hb : ((((m, id), r) : (Nat × Nat) × Nat).1 == (m', id')) = false := by
    simp only [beq_eq_false_iff_ne]
    exact fun hc => h hc.symm
  simp only [findCachedTemplateObject, cacheTemplateObject, List.find?, hb]

end RTState

/-! ## `setIndexed` lemmas -/

theorem find?_setIndexed_self (props : List (Nat × PropFlags × JSValue))
    (i : Nat) (f : PropFlags) (v : JSValue) :
    (setIndexed props i f v).find? (fun e => e.1 == i) = some (i, f, v) := by
  induction props with
  | nil =>
    simp only [setIndexed]
    exact List.find?_cons_of_pos _ (by simp)
  | cons hd tl ih =>
    obtain ⟨j, g, w⟩ := hd
    simp only [setIndexed]
    split
    · exact List.find?_cons_of_pos _ (by simp)
    · split
      · exact List.find?_cons_of_pos _ (by simp)
      · rename_i h1 h2
        rw [List.find?_cons_of_neg _
          (by simp only [beq_iff_eq]; omega), ih]

theorem find?_setIndexed_ne (props : List (Nat × PropFlags × JSValue))
    {i j : Nat} (f : PropFlags) (v : JSValue) (h : j ≠ i) :
    (setIndexed props i f v).find? (fun e => e.1 == j) =
      props.find? (fun e => e.1 == j) := by
  induction props with
  | nil =>
    simp only [setIndexed]
    rw [List.find?_cons_of_neg _ (by simp only [beq_iff_eq]; omega)]
  | cons hd tl ih =>
    obtain ⟨k, g, w⟩ := hd
    simp only [setIndexed]
    split
    · rw [List.find?_cons_of_neg _ (by simp only [beq_iff_eq]; omega)]
    · split
      · rename_i h1 h2
        subst h2
        rw [List.find?_cons_of_neg _ (by simp only [beq_iff_eq]; omega),
            List.find?_cons_of_neg _ (by simp only [beq_iff_eq]; omega)]
      · cases hk : (k == j) with
        | true =>
          rw [List.find?_cons_of_pos _ (by simp [hk]),
              List.find?_cons_of_pos _ (by simp [hk])]
        | false =>
          rw [List.find?_cons_of_neg _ (by simp [hk]),
              List.find?_cons_of_neg _ (by simp [hk]), ih]

theorem setIndexed_append (props : List (Nat × PropFlags × JSValue))
    (i : Nat) (f : PropFlags) (v : JSValue) (h : ∀ p ∈ props, p.1 < i) :
    setIndexed props i f v = props ++ [(i, f, v)] := by
  induction props with
  | nil => rfl
  | cons hd tl ih =>
    obtain ⟨j, g, w⟩ := hd
    have hj : j < i := h (j, g, w) (List.mem_cons_self _ _)
    simp only [setIndexed]
    rw [if_neg (by omega), if_neg (by omega)]
    simp [ih (fun p hp => h p (List.mem_cons_of_mem _ hp))]

/-! ## `putComputedNum` and `spreadPlace` lemmas -/

theorem objects_putComputedNum_length (st : RTState) (t : Nat) (i : Int)
    (v : JSValue) :
    (putComputedNum st t i v).objects.length = st.objects.length := by
  unfold putComputedNum
  split <;> apply RTState.objects_updateObj_length

theorem getOwnIndexed_putComputedNum_self (st : RTState) (t : Nat) (i : Int)
    (v : JSValue) (hv : t < st.objects.length) (hi : 0 ≤ i) :
    ((putComputedNum st t i v).getObj t).getOwnIndexed i.toNat = v := by
  simp only [putComputedNum, if_pos hi]
  rw [RTState.getObj_updateObj_self _ _ _ hv]
  simp [ObjData.getOwnIndexed, ObjData.defineIndexed, find?_setIndexed_self]

theorem getOwnIndexed_putComputedNum_ne (st : RTState) (t : Nat) (i : Int)
    (v : JSValue) (hv : t < st.objects.length) (hi : 0 ≤ i) {j : Nat}
    (hj : j ≠ i.toNat) :
    ((putComputedNum st t i v).getObj t).getOwnIndexed j =
      (st.getObj t).getOwnIndexed j := by
  simp only [putComputedNum, if_pos hi]
  rw [RTState.getObj_updateObj_self _ _ _ hv]
  simp [ObjData.getOwnIndexed, ObjData.defineIndexed, find?_setIndexed_ne _ _ _ hj]

theorem objects_spreadPlace_length (t : Nat) (vs : List JSValue) :
    ∀ (st : RTState) (nI : Int),
      (spreadPlace t st nI vs).objects.length = st.objects.length := by
  induction vs with
  | nil => intro st nI; rfl
  | cons v vs ih =>
    intro st nI
    rw [spreadPlace, ih, objects_putComputedNum_length]

theorem spreadPlace_getOwnIndexed_lt (t : Nat) (vs : List JSValue) :
    ∀ (st : RTState) (nI : Int) (j : Nat),
      t < st.objects.length → 0 ≤ nI → j < nI.toNat →
      ((spreadPlace t st nI vs).getObj t).getOwnIndexed j =
        (st.getObj t).getOwnIndexed j := by
  induction vs with
  | nil => intro st nI j _ _ _; rfl
  | cons v vs ih =>
    intro st nI j hv hnI hj
    rw [spreadPlace,
      ih _ _ _ (by rw [objects_putComputedNum_length]; exact hv) (by omega)
        (by omega),
      getOwnIndexed_putComputedNum_ne st t nI v hv hnI (by omega)]

theorem spreadPlace_getOwnIndexed_ge (t : Nat) (vs : List JSValue) :
    ∀ (st : RTState) (nI : Int) (j : Nat),
      t < st.objects.length → 0 ≤ nI → nI.toNat + vs.length ≤ j →
      ((spreadPlace t st nI vs).getObj t).getOwnIndexed j =
        (st.getObj t).getOwnIndexed j := by
  induction vs with
  | nil => intro st nI j _ _ _; rfl
  | cons v vs ih =>
    intro st nI j hv hnI hj
    simp only [List.length_cons] at hj
    rw [spreadPlace,
      ih _ _ _ (by rw [objects_putComputedNum_length]; exact hv) (by omega)
        (by omega),
      getOwnIndexed_putComputedNum_ne st t nI v hv hnI (by omega)]

theorem spreadPlace_getOwnIndexed_at (t : Nat) (vs : List JSValue) :
    ∀ (st : RTState) (nI : Int) (j : Nat),
      t < st.objects.length → 0 ≤ nI → j < vs.length →
      ((spreadPlace t st nI vs).getObj t).getOwnIndexed (nI.toNat + j) =
        vs.getD j JSValue.undefined := by
  induction vs with
  | nil => intro st nI j _ _ hj; simp at hj
  | cons v vs ih =>
    intro st nI j hv hnI hj
    match j with
    | 0 =>
      rw [spreadPlace,
        spreadPlace_getOwnIndexed_lt t vs _ _ _
          (by rw [objects_putComputedNum_length]; exact hv) (by omega) (by omega)]
      simpa using getOwnIndexed_putComputedNum_self st t nI v hv hnI
    | j + 1 =>
      have : nI.toNat + (j + 1) = (nI + 1).toNat + j := by omega
      rw [spreadPlace, this,
        ih _ _ _ (by rw [objects_putComputedNum_length]; exact hv) (by omega)
          (by simpa using hj)]
      rfl

theorem arraySpreadLoop_yield_prefix (t : Nat) (vs : List JSValue) :
    ∀ (st : RTState) (nI : Int) (rest : List IterStep),
      arraySpreadLoop t st nI (vs.map IterStep.yieldVal ++ rest) =
        arraySpreadLoop t (spreadPlace t st nI vs) (nI + vs.length) rest := by
  induction vs with
  | nil => intro st nI rest; simp [spreadPlace]
  | cons v vs ih =>
    intro st nI rest
    simp only [List.map_cons, List.cons_append, arraySpreadLoop, spreadPlace,
      List.append_eq]
    rw [ih]
    congr 1
    simp only [List.length_cons]
    push_cast
    ring

/-! ## `fillRestArgs` lemmas -/

theorem find?_range'_map (d : PropFlags) (g : Nat → JSValue) (k : Nat) :
    ∀ (s j : Nat), s ≤ j → j < s + k →
      ((List.range' s k).map (fun x => (x, d, g x))).find?
          (fun e => e.1 == j) = some (j, d, g j) := by
  induction k with
  | zero => intro s j h1 h2; omega
  | succ k ih =>
    intro s j h1 h2
    rw [List.range'_succ, List.map_cons]
    by_cases hj : j = s
    · subst hj
      exact List.find?_cons_of_pos _ (by simp)
    · rw [List.find?_cons_of_neg _ (by simp only [beq_iff_eq]; omega)]
      exact ih (s + 1) j (by omega) (by omega)

theorem fillRestArgs_spec (arrRef : Nat) (cargs : List JSValue) (k : Nat) :
    ∀ (st : RTState) (i from0 : Nat),
      arrRef < st.objects.length →
      (∀ p ∈ (st.getObj arrRef).indexedProps, p.1 < i) →
      i + k ≤ (st.getObj arrRef).lengthValue →
      (fillRestArgs arrRef cargs st i from0 k).getObj arrRef =
        { st.getObj arrRef with
          indexedProps := (st.getObj arrRef).indexedProps ++
            (List.range' i k).map
              (fun j => (j, defaultNewPropFlags, getArg cargs (from0 + (j - i)))) } ∧
      (fillRestArgs arrRef cargs st i from0 k).objects.length =
        st.objects.length := by
  induction k with
  | zero =>
    intro st i from0 hv hlt hlen
    constructor
    · simp [fillRestArgs]
    · rfl
  | succ k ih =>
    intro st i from0 hv hlt hlen
    have hcond : ¬ ((st.getObj arrRef).lengthValue ≤ i) := by omega
    have hobj1 :
        (st.updateObj arrRef (fun o =>
            o.defineIndexed i defaultNewPropFlags (getArg cargs from0))).getObj
          arrRef =
        { st.getObj arrRef with
          indexedProps := (st.getObj arrRef).indexedProps ++
            [(i, defaultNewPropFlags, getArg cargs from0)] } := by
      rw [RTState.getObj_updateObj_self _ _ _ hv]
      simp [ObjData.defineIndexed, hcond, setIndexed_append _ _ _ _ hlt]
    have hlen1 := RTState.objects_updateObj_length st arrRef
      (fun o => o.defineIndexed i defaultNewPropFlags (getArg cargs from0))
    obtain ⟨ih1, ih2⟩ := ih
      (st.updateObj arrRef (fun o =>
        o.defineIndexed i defaultNewPropFlags (getArg cargs from0)))
      (i + 1) (from0 + 1)
      (by rw [hlen1]; exact hv)
      (by
        rw [hobj1]
        intro p hp
        rcases List.mem_append.mp hp with h | h
        · exact Nat.lt_succ_of_lt (hlt p h)
        · rw [List.mem_singleton] at h
          rw [h]
          exact Nat.lt_succ_self i)
      (by rw [hobj1]; simpa using (by omega : (i + 1) + k ≤ (st.getObj arrRef).lengthValue))
    have hlist : (((st.getObj arrRef).indexedProps ++
          [(i, defaultNewPropFlags, getArg cargs from0)]) ++
          (List.range' (i + 1) k).map
            (fun j => (j, defaultNewPropFlags,
              getArg cargs ((from0 + 1) + (j - (i + 1)))))) =
        (st.getObj arrRef).indexedProps ++
          (List.range' i (k + 1)).map
            (fun j => (j, defaultNewPropFlags,
              getArg cargs (from0 + (j - i)))) := by
      rw [List.append_assoc, List.range'_succ, List.map_cons]
      congr 1
      rw [List.singleton_append]
      have h0 : from0 + (i - i) = from0 := by omega
      rw [h0]
      congr 1
      apply List.map_congr_left
      intro a ha
      have hb := List.mem_range'_1.mp ha
      have hc : (from0 + 1) + (a - (i + 1)) = from0 + (a - i) := by omega
      rw [hc]
    constructor
    · rw [fillRestArgs, ih1, hobj1]
      simp [hlist]
    · rw [fillRestArgs, ih2, hlen1]

/-! ## Theorems for the claims -/

/-- C10: for every call to `copyRestArgs` whose first argument is not a
number, the operation returns undefined, creates no array (the state is
unchanged) and raises no error — even when a caller frame exists. -/
theorem copyRestArgs_nonNumber_returns_undefined (st : RTState)
    (callerArgs : Option (List JSValue)) (args : List JSValue)
    (h : (getArg args 0).isNumber = false) :
    hermesBuiltinCopyRestArgs st callerArgs args = (.ok .undefined, st) := by
  cases callerArgs with
  | none => rfl
  | some cargs => simp [hermesBuiltinCopyRestArgs, h]

/-- Witness for C10 at a concrete input: a string `from` argument with an
existing caller frame carrying one argument. -/
theorem copyRestArgs_nonNumber_returns_undefined_witness :
    hermesBuiltinCopyRestArgs {} (some [JSValue.num 7]) [JSValue.str "x"] =
      (.ok .undefined, {}) :=
  copyRestArgs_nonNumber_returns_undefined {} (some [JSValue.num 7])
    [JSValue.str "x"] (by decide)

/-- C8: `generatorSetDelegated` raises a TypeError and mutates no state
whenever the immediate caller frame's callee is not a generator
activation; otherwise it sets exactly that generator's delegation flag to
true (all other objects untouched) and returns undefined. -/
theorem generatorSetDelegated_spec (st : RTState) (cc : Option JSValue)
    (r : Nat) (hr : r < st.objects.length) :
    (dynVmcastGeneratorInner st cc = none →
      hermesBuiltinGeneratorSetDelegated st cc =
        (.error (.typeError "generatorSetDelegated can only be called as part of yield*"),
          st)) ∧
    (dynVmcastGeneratorInner st cc = some r →
      hermesBuiltinGeneratorSetDelegated st cc =
        (.ok .undefined, st.setObj r { st.getObj r with isDelegated := true }) ∧
      (st.setObj r { st.getObj r with isDelegated := true }).getObj r =
        { st.getObj r with isDelegated := true } ∧
      (∀ r', r' ≠ r →
        (st.setObj r { st.getObj r with isDelegated := true }).getObj r' =
          st.getObj r')) := by
  constructor
  · intro h
    simp [hermesBuiltinGeneratorSetDelegated, h]
  · intro h
    refine ⟨by simp [hermesBuiltinGeneratorSetDelegated, h, RTState.updateObj], ?_, ?_⟩
    · exact st.getObj_setObj_self r _ hr
    · intro r' hne
      exact st.getObj_setObj_ne _ hne

/-- Witness for C8: both cases at concrete inputs — a non-generator
caller (error, no mutation) and a generator caller (flag set). -/
theorem generatorSetDelegated_spec_witness :
    (hermesBuiltinGeneratorSetDelegated { objects := [{}] } (some (.obj 0)) =
      (.error (.typeError "generatorSetDelegated can only be called as part of yield*"),
        { objects := [{}] })) ∧
    (hermesBuiltinGeneratorSetDelegated
        { objects := [{ isGenerator := true }] } (some (.obj 0)) =
      (.ok .undefined,
        RTState.setObj { objects := [{ isGenerator := true }] } 0
          { RTState.getObj { objects := [{ isGenerator := true }] } 0 with
              isDelegated := true })) :=
  ⟨(generatorSetDelegated_spec { objects := [{}] } (some (.obj 0)) 0
      (by decide)).1 (by decide),
   ((generatorSetDelegated_spec { objects := [{ isGenerator := true }] }
      (some (.obj 0)) 0 (by decide)).2 (by decide)).1⟩

/-- C4: if the iterator raises on its k-th step, `arraySpread` propagates
the error as-is; the final state is exactly the input state with the k-1
already yielded values placed on the target at consecutive indices
starting at `nextIndex` — those elements are present (no rollback), and
the target's other indices are untouched. -/
theorem arraySpread_throwing_iterator (st : RTState) (t : Nat) (srcV : JSValue)
    (nI : Int) (placed : List JSValue) (e : JSError) (rest : List IterStep)
    (hv : t < st.objects.length) (ht : (st.getObj t).isArray = true)
    (hnI : 0 ≤ nI) :
    hermesBuiltinArraySpread st
        (placed.map IterStep.yieldVal ++ IterStep.raise e :: rest)
        [.obj t, srcV, .num nI] =
      (.error e, spreadPlace t st nI placed) ∧
    (∀ j, j < placed.length →
      ((spreadPlace t st nI placed).getObj t).getOwnIndexed (nI.toNat + j) =
        placed.getD j JSValue.undefined) ∧
    (∀ j, j < nI.toNat →
      ((spreadPlace t st nI placed).getObj t).getOwnIndexed j =
        (st.getObj t).getOwnIndexed j) ∧
    (∀ j, nI.toNat + placed.length ≤ j →
      ((spreadPlace t st nI placed).getObj t).getOwnIndexed j =
        (st.getObj t).getOwnIndexed j) := by
  refine ⟨?_, ?_, ?_, ?_⟩
  · show hermesBuiltinArraySpread st
      (placed.map IterStep.yieldVal ++ IterStep.raise e :: rest)
      [.obj t, srcV, .num nI] = _
    simp only [hermesBuiltinArraySpread, getArg, List.getD, List.get?,
      Option.getD_some]
    rw [if_pos ht]
    rw [show (JSValue.num nI).getNumber = nI from rfl,
      arraySpreadLoop_yield_prefix]
    rfl
  · intro j hj
    exact spreadPlace_getOwnIndexed_at t placed st nI j hv hnI hj
  · intro j hj
    exact spreadPlace_getOwnIndexed_lt t placed st nI j hv hnI hj
  · intro j hj
    exact spreadPlace_getOwnIndexed_ge t placed st nI j hv hnI hj

/-- Witness for C4: an array target, two yielded values, then a raise on
the third step. -/
theorem arraySpread_throwing_iterator_witness :
    hermesBuiltinArraySpread { objects := [{ isArray := true }] }
        ([JSValue.num 10, JSValue.num 11].map IterStep.yieldVal ++
          IterStep.raise (.thrown (.str "boom")) :: [])
        [.obj 0, .undefined, .num 0] =
      (.error (.thrown (.str "boom")),
        spreadPlace 0 { objects := [{ isArray := true }] } 0
          [JSValue.num 10, JSValue.num 11]) ∧
    ((spreadPlace 0 { objects := [{ isArray := true }] } 0
        [JSValue.num 10, JSValue.num 11]).getObj 0).getOwnIndexed 0 =
      JSValue.num 10 :=
  ⟨(arraySpread_throwing_iterator { objects := [{ isArray := true }] } 0
      .undefined 0 [JSValue.num 10, JSValue.num 11]
      (.thrown (.str "boom")) [] (by decide) (by decide) (by decide)).1,
   by decide⟩

/-- C7 counterexample: `-1` is a numeric `from` and a caller frame with
one argument exists, yet the result is an *empty* array — the claim's
formula `max(argCount - from, 0)` demands length `max(1 - (-1), 0) = 2`.
The code first truncates `from` to `uint32` (`-1 ↦ 4294967295`), so the
claimed formula fails for negative numeric `from`. -/
theorem copyRestArgs_formula_cex :
    (hermesBuiltinCopyRestArgs {} (some [JSValue.num 7]) [JSValue.num (-1)]).1 =
        .ok (.obj 0) ∧
    ((hermesBuiltinCopyRestArgs {} (some [JSValue.num 7])
        [JSValue.num (-1)]).2.getObj 0).indexedProps = [] ∧
    ((hermesBuiltinCopyRestArgs {} (some [JSValue.num 7])
        [JSValue.num (-1)]).2.getObj 0).lengthValue = 0 ∧
    ¬ ((0 : Int) = max (1 - (-1)) 0) :=
  ⟨rfl, by decide, by decide, by decide⟩

/-- C7 (amended): for a numeric `from` that is a non-negative integer
below `2^32` and an existing caller frame, `copyRestArgs` returns a fresh
array of length `argCount - from` in truncated subtraction (that is,
`max(argCount - from, 0)`) containing the caller's arguments
`[from, argCount)` in order — and never an error; in particular `from`
greater than the caller's argument count yields an empty array. -/
theorem copyRestArgs_amended (st : RTState) (cargs args : List JSValue)
    (n : Nat) (h0 : getArg args 0 = .num (n : Int))
    (hlt : (n : Int) < 2 ^ 32) :
    ∃ st',
      hermesBuiltinCopyRestArgs st (some cargs) args =
        (.ok (.obj st.objects.length), st') ∧
      (st'.getObj st.objects.length).isArray = true ∧
      (st'.getObj st.objects.length).lengthValue = cargs.length - n ∧
      (st'.getObj st.objects.length).indexedProps.length = cargs.length - n ∧
      (∀ i, i < cargs.length - n →
        (st'.getObj st.objects.length).getOwnIndexed i =
          getArg cargs (n + i)) := by
  have hnum : (getArg args 0).isNumber = true := by rw [h0]; rfl
  have htr : truncateToUInt32 (getArg args 0).getNumber = n := by
    rw [h0]
    show ((n : Int) % 2 ^ 32).toNat = n
    rw [Int.emod_eq_of_lt (Int.natCast_nonneg n) hlt]
    exact Int.toNat_natCast n
  have hL : (if n ≤ cargs.length then cargs.length - n else 0) =
      cargs.length - n := by split <;> omega
  have hrun : hermesBuiltinCopyRestArgs st (some cargs) args =
      (.ok (.obj st.objects.length),
        fillRestArgs st.objects.length cargs
          ((st.alloc { lengthValue := cargs.length - n, isArray := true }).2)
          0 n (cargs.length - n)) := by
    simp only [hermesBuiltinCopyRestArgs, hnum, Bool.not_true, Bool.false_eq_true,
      if_false, htr, hL, JSArrayCreate]
    rfl
  have hfresh : ((st.alloc
      { lengthValue := cargs.length - n, isArray := true }).2).getObj
        st.objects.length =
      { lengthValue := cargs.length - n, isArray := true } :=
    RTState.getObj_alloc_self st _
  obtain ⟨hchar, _⟩ := fillRestArgs_spec st.objects.length cargs
    (cargs.length - n)
    ((st.alloc { lengthValue := cargs.length - n, isArray := true }).2) 0 n
    (by rw [RTState.objects_alloc_length]; omega)
    (by rw [hfresh]; intro p hp; simp at hp)
    (by rw [hfresh]; simp)
  rw [hfresh] at hchar
  refine ⟨_, hrun, ?_, ?_, ?_, ?_⟩
  · rw [hchar]
  · rw [hchar]
  · rw [hchar]
    simp [List.length_range']
  · intro i hi
    rw [hchar]
    show ObjData.getOwnIndexed _ i = _
    unfold ObjData.getOwnIndexed
    simp only [List.nil_append]
    rw [find?_range'_map defaultNewPropFlags
      (fun x => getArg cargs (n + (x - 0))) (cargs.length - n) 0 i
      (Nat.zero_le i) (by omega)]
    simp

/-- Witness for C7's amended theorem, at the claim's own boundary
example: `from = 5` exceeds the caller's argument count 2, and the result
is an empty array, never an error. -/
theorem copyRestArgs_amended_witness :
    ∃ st',
      hermesBuiltinCopyRestArgs {} (some [JSValue.num 7, JSValue.num 8])
          [JSValue.num 5] =
        (.ok (.obj 0), st') ∧
      (st'.getObj 0).isArray = true ∧
      (st'.getObj 0).lengthValue = 0 ∧
      (st'.getObj 0).indexedProps.length = 0 ∧
      (∀ i, i < 0 →
        (st'.getObj 0).getOwnIndexed i =
          getArg [JSValue.num 7, JSValue.num 8] (5 + i)) :=
  copyRestArgs_amended {} [JSValue.num 7, JSValue.num 8] [JSValue.num 5] 5
    (by decide) (by decide)

/-- C5: with exactly two arguments (callable `fn`, array `argArray`),
`apply` prepares a construct invocation: a fresh `this` (the newly
allocated reference, equal to the prior heap size) and the array's
elements bound positionally, handing the frame to construct semantics;
with a third argument it prepares an ordinary call with that `this`; a
non-callable `fn` or a non-array `argArray` raises a TypeError with the
state untouched — nothing is invoked or allocated. -/
theorem apply_dispatch (st : RTState) (f a : Nat) (tv nc na : JSValue)
    (rest2 rest3 : List JSValue)
    (hf : (st.getObj f).isCallable = true)
    (ha : (st.getObj a).isArray = true)
    (hnc : ∀ r, nc = .obj r → (st.getObj r).isCallable = false)
    (hna : ∀ r, na = .obj r → (st.getObj r).isArray = false) :
    (hermesBuiltinApply st [.obj f, .obj a] =
      (.ok ⟨true, f, .obj st.objects.length,
        (List.range (st.getObj a).lengthValue).map
          (fun i => (st.getObj a).getOwnIndexed i)⟩,
        (st.alloc {}).2)) ∧
    (hermesBuiltinApply st [.obj f, .obj a, tv] =
      (.ok ⟨false, f, tv,
        (List.range (st.getObj a).lengthValue).map
          (fun i => (st.getObj a).getOwnIndexed i)⟩, st)) ∧
    (hermesBuiltinApply st (nc :: rest2) =
      (.error (.typeError (nc.toDisplay ++ " is not a function")), st)) ∧
    (hermesBuiltinApply st (.obj f :: na :: rest3) =
      (.error (.typeError "args must be an array"), st)) := by
  refine ⟨?_, ?_, ?_, ?_⟩
  · simp only [hermesBuiltinApply, getArg, List.getD, List.get?,
      Option.getD_some, hf, ha, if_true, List.length_cons, List.length_nil]
    rfl
  · simp [hermesBuiltinApply, getArg, hf, ha]
  · cases nc with
    | obj r => simp [hermesBuiltinApply, getArg, hnc r rfl]
    | undefined => rfl
    | null => rfl
    | bool b => rfl
    | num x => rfl
    | str s => rfl
  · cases na with
    | obj r => simp [hermesBuiltinApply, getArg, hf, hna r rfl]
    | undefined => simp [hermesBuiltinApply, getArg, hf]
    | null => simp [hermesBuiltinApply, getArg, hf]
    | bool b => simp [hermesBuiltinApply, getArg, hf]
    | num x => simp [hermesBuiltinApply, getArg, hf]
    | str s => simp [hermesBuiltinApply, getArg, hf]

/-- Witness for C5: callable at 0, array `[1,2,3]` at 1 — two arguments
construct (fresh `this` is the new reference 2), three arguments call
with the given `this`. -/
theorem apply_dispatch_witness :
    (hermesBuiltinApply applyExampleState [.obj 0, .obj 1] =
      (.ok ⟨true, 0, .obj 2, [JSValue.num 1, JSValue.num 2, JSValue.num 3]⟩,
        (applyExampleState.alloc {}).2)) ∧
    (hermesBuiltinApply applyExampleState [.obj 0, .obj 1, .str "this"] =
      (.ok ⟨false, 0, .str "this",
        [JSValue.num 1, JSValue.num 2, JSValue.num 3]⟩,
        applyExampleState)) :=
  ⟨by
    rw [(apply_dispatch applyExampleState 0 1 (.str "this") (.num 1)
      (.str "no") [] [] rfl rfl (fun r h => nomatch h) (fun r h => nomatch h)).1]
    rfl,
   by
    rw [(apply_dispatch applyExampleState 0 1 (.str "this") (.num 1)
      (.str "no") [] [] rfl rfl (fun r h => nomatch h)
      (fun r h => nomatch h)).2.1]
    rfl⟩

/-- The export visitor, run over the source's property list, performs
exactly the spec-side `defineExports` of the filtered, snapshot-read
pairs — provided the source object is distinct from `exports`, so that
the running mutations never touch it. -/
theorem exportAllPass (exportsRef sourceRef : Nat) (src0 : ObjData)
    (hne : sourceRef ≠ exportsRef)
    (props : List (String × PropFlags × JSValue)) :
    ∀ (st : RTState), st.getObj sourceRef = src0 →
      forEachWhile
          (fun s e => exportAllCB exportsRef sourceRef s e.1 e.2.1 e.2.2)
          st props =
        (true, defineExports exportsRef st
          ((props.filter (fun e => e.2.1.enumerable &&
              !(e.1 == defaultExportName))).map
            (fun e => (e.1, src0.getNamedValue e.1)))) := by
  induction props with
  | nil => intro st hsrc; rfl
  | cons hd tl ih =>
    intro st hsrc
    obtain ⟨name, flags, v⟩ := hd
    simp only [forEachWhile]
    by_cases hen : flags.enumerable = true
    · by_cases hdef : name = defaultExportName
      · have hcb : exportAllCB exportsRef sourceRef st name flags v =
            (true, st) := by
          simp [exportAllCB, hen, hdef]
        have hfil : ((flags.enumerable && !(name == defaultExportName))) =
            false := by simp [hen, hdef]
        simp only [hcb, List.filter_cons, hfil, Bool.false_eq_true, if_false]
        exact ih st hsrc
      · have hcb : exportAllCB exportsRef sourceRef st name flags v =
            (true, st.updateObj exportsRef
              (fun o => o.defineNamed name exportPropFlags
                (src0.getNamedValue name))) := by
          simp [exportAllCB, hen, hdef, hsrc]
        have hfil : ((flags.enumerable && !(name == defaultExportName))) =
            true := by simp [hen, hdef]
        simp only [hcb, List.filter_cons, hfil, if_true, List.map_cons,
          defineExports]
        exact ih _ (by
          rw [RTState.getObj_updateObj_ne st _ hne]
          exact hsrc)
    · have hcb : exportAllCB exportsRef sourceRef st name flags v =
          (true, st) := by
        simp only [exportAllCB]
        rw [if_pos (by simp [Bool.eq_false_iff.mpr hen])]
      have hfil : ((flags.enumerable && !(name == defaultExportName))) =
          false := by simp [Bool.eq_false_iff.mpr hen]
      simp only [hcb, List.filter_cons, hfil, Bool.false_eq_true, if_false]
      exact ih st hsrc

/-- C9: `exportAll` raises a TypeError (state untouched) when either
argument is not an object — the exports argument checked first; with two
distinct objects it enumerates the source's own named properties in
definition order and defines each enumerable one whose key is not the
reserved default-export name on `exports` with default new-property
flags except configurable = 0, skipping non-enumerable properties, and
returns undefined. -/
theorem exportAll_spec (st : RTState) (exportsRef sourceRef : Nat)
    (v0 v1 : JSValue) (tail2 tail3 : List JSValue)
    (hne : sourceRef ≠ exportsRef)
    (hv0 : v0.isObject = false) (hv1 : v1.isObject = false) :
    (hermesBuiltinExportAll st (v0 :: tail2) =
      (.error (.typeError "exportAll() exports argument must be object"), st)) ∧
    (hermesBuiltinExportAll st (.obj exportsRef :: v1 :: tail3) =
      (.error (.typeError "exportAll() source argument must be object"), st)) ∧
    (hermesBuiltinExportAll st [.obj exportsRef, .obj sourceRef] =
      (.ok .undefined,
        defineExports exportsRef st (exportedPairs (st.getObj sourceRef)))) := by
  refine ⟨?_, ?_, ?_⟩
  · cases v0 with
    | obj r => simp [JSValue.isObject] at hv0
    | undefined => rfl
    | null => rfl
    | bool b => rfl
    | num x => rfl
    | str s => rfl
  · cases v1 with
    | obj r => simp [JSValue.isObject] at hv1
    | undefined => rfl
    | null => rfl
    | bool b => rfl
    | num x => rfl
    | str s => rfl
  · show (match forEachWhile
        (fun s e => exportAllCB exportsRef sourceRef s e.1 e.2.1 e.2.2) st
        ((st.getObj sourceRef).namedProps) with
      | (true, st2) => ((.ok .undefined : Except JSError JSValue), st2)
      | (false, st2) => (.error (.thrown JSValue.undefined), st2)) = _
    rw [exportAllPass exportsRef sourceRef (st.getObj sourceRef) hne
      ((st.getObj sourceRef).namedProps) st rfl]
    rfl

/-- Witness for C9 at the claim's example: source
`{default:1, x:2, [non-enumerable] y:3}` exported onto `{}` yields
exactly `{x:2}`, with `x` carrying {writable, enumerable,
non-configurable}. -/
theorem exportAll_spec_witness :
    (hermesBuiltinExportAll exportExampleState [.obj 0, .obj 1] =
      (.ok .undefined,
        defineExports 0 exportExampleState
          (exportedPairs (exportExampleState.getObj 1)))) ∧
    ((defineExports 0 exportExampleState
        (exportedPairs (exportExampleState.getObj 1))).getObj 0).namedProps =
      [("x", exportPropFlags, JSValue.num 2)] :=
  ⟨(exportAll_spec exportExampleState 0 1 (.num 0) (.num 0) [] []
      (by decide) (by decide) (by decide)).2.2,
   by decide⟩

/-- `definePairs` only ever touches the target object. -/
theorem getObj_definePairs_ne (targetRef : Nat)
    (pairs : List ((Nat ⊕ String) × JSValue)) :
    ∀ (st : RTState) (r : Nat), r ≠ targetRef →
      (definePairs targetRef st pairs).getObj r = st.getObj r := by
  induction pairs with
  | nil => intro st r _; rfl
  | cons hd tl ih =>
    obtain ⟨k, v⟩ := hd
    intro st r hr
    cases k with
    | inl i =>
      rw [definePairs, ih _ _ hr, RTState.getObj_updateObj_ne st _ hr]
    | inr s =>
      rw [definePairs, ih _ _ hr, RTState.getObj_updateObj_ne st _ hr]

/-- `definePairs` over an append is sequential composition. -/
theorem definePairs_append (targetRef : Nat)
    (l1 l2 : List ((Nat ⊕ String) × JSValue)) :
    ∀ (st : RTState),
      definePairs targetRef st (l1 ++ l2) =
        definePairs targetRef (definePairs targetRef st l1) l2 := by
  induction l1 with
  | nil => intro st; rfl
  | cons hd tl ih =>
    obtain ⟨k, v⟩ := hd
    intro st
    cases k with
    | inl i => rw [List.cons_append, definePairs, definePairs, ih]
    | inr s => rw [List.cons_append, definePairs, definePairs, ih]

/-- The indexed visitor of `copyDataProperties`, run without an exclusion
object, performs exactly the spec-side `definePairs` of the filtered,
snapshot-read indexed pairs. -/
theorem copyDataIndexedPassNone (targetRef sourceRef : Nat) (src0 : ObjData)
    (hne : sourceRef ≠ targetRef)
    (props : List (Nat × PropFlags × JSValue)) :
    ∀ (st : RTState), st.getObj sourceRef = src0 →
      forEachWhile
          (fun s e => copyDataIndexedCB targetRef sourceRef none
            s e.1 e.2.1 e.2.2) st props =
        (true, definePairs targetRef st
          ((props.filter (fun e => e.2.1.enumerable && !excludesIdx none e.1)).map
            (fun e => (Sum.inl e.1, src0.getOwnIndexed e.1)))) := by
  induction props with
  | nil => intro st hsrc; rfl
  | cons hd tl ih =>
    intro st hsrc
    obtain ⟨i, flags, v⟩ := hd
    simp only [forEachWhile]
    by_cases hen : flags.enumerable = true
    · have hcb : copyDataIndexedCB targetRef sourceRef none st i flags v =
          (true, st.updateObj targetRef
            (fun o => o.defineIndexed i defaultNewPropFlags
              (src0.getOwnIndexed i))) := by
        simp [copyDataIndexedCB, hen, hsrc]
      have hfil : (flags.enumerable && !excludesIdx none i) = true := by
        simp [hen, excludesIdx]
      simp only [hcb, List.filter_cons, hfil, if_true, List.map_cons,
        definePairs]
      exact ih _ (by rw [RTState.getObj_updateObj_ne st _ hne]; exact hsrc)
    · have hcb : copyDataIndexedCB targetRef sourceRef none st i flags v =
          (true, st) := by
        simp only [copyDataIndexedCB]
        rw [if_pos (by simp [Bool.eq_false_iff.mpr hen])]
      have hfil : (flags.enumerable && !excludesIdx none i) = false := by
        simp [Bool.eq_false_iff.mpr hen]
      simp only [hcb, List.filter_cons, hfil, Bool.false_eq_true, if_false]
      exact ih st hsrc

/-- The indexed visitor of `copyDataProperties` with an exclusion object:
own indexed keys of the exclusion object are skipped, everything else is
defined onto the target. -/
theorem copyDataIndexedPassSome (targetRef sourceRef x : Nat)
    (src0 ex0 : ObjData) (hne : sourceRef ≠ targetRef)
    (hxne : x ≠ targetRef) (props : List (Nat × PropFlags × JSValue)) :
    ∀ (st : RTState), st.getObj sourceRef = src0 → st.getObj x = ex0 →
      forEachWhile
          (fun s e => copyDataIndexedCB targetRef sourceRef (some x)
            s e.1 e.2.1 e.2.2) st props =
        (true, definePairs targetRef st
          ((props.filter
              (fun e => e.2.1.enumerable && !excludesIdx (some ex0) e.1)).map
            (fun e => (Sum.inl e.1, src0.getOwnIndexed e.1)))) := by
  induction props with
  | nil => intro st hsrc hx; rfl
  | cons hd tl ih =>
    intro st hsrc hx
    obtain ⟨i, flags, v⟩ := hd
    simp only [forEachWhile]
    by_cases hen : flags.enumerable = true
    · by_cases hskip : ex0.hasIndexed i = true
      · have hcb : copyDataIndexedCB targetRef sourceRef (some x) st i flags v =
            (true, st) := by
          simp [copyDataIndexedCB, hen, hx, hskip]
        have hfil : (flags.enumerable && !excludesIdx (some ex0) i) = false := by
          simp [hen, excludesIdx, hskip]
        simp only [hcb, List.filter_cons, hfil, Bool.false_eq_true, if_false]
        exact ih st hsrc hx
      · have hcb : copyDataIndexedCB targetRef sourceRef (some x) st i flags v =
            (true, st.updateObj targetRef
              (fun o => o.defineIndexed i defaultNewPropFlags
                (src0.getOwnIndexed i))) := by
          simp [copyDataIndexedCB, hen, hx, hskip, hsrc]
        have hfil : (flags.enumerable && !excludesIdx (some ex0) i) = true := by
          simp [hen, excludesIdx, Bool.eq_false_iff.mpr hskip]
        simp only [hcb, List.filter_cons, hfil, if_true, List.map_cons,
          definePairs]
        refine ih _ (by rw [RTState.getObj_updateObj_ne st _ hne]; exact hsrc)
          (by rw [RTState.getObj_updateObj_ne st _ hxne]; exact hx)
    · have hcb : copyDataIndexedCB targetRef sourceRef (some x) st i flags v =
          (true, st) := by
        simp only [copyDataIndexedCB]
        rw [if_pos (by simp [Bool.eq_false_iff.mpr hen])]
      have hfil : (flags.enumerable && !excludesIdx (some ex0) i) = false := by
        simp [Bool.eq_false_iff.mpr hen]
      simp only [hcb, List.filter_cons, hfil, Bool.false_eq_true, if_false]
      exact ih st hsrc hx

/-- The named visitor of `copyDataProperties` without an exclusion
object. -/
theorem copyDataNamedPassNone (targetRef sourceRef : Nat) (src0 : ObjData)
    (hne : sourceRef ≠ targetRef)
    (props : List (String × PropFlags × JSValue)) :
    ∀ (st : RTState), st.getObj sourceRef = src0 →
      forEachWhile
          (fun s e => copyDataNamedCB targetRef sourceRef none
            s e.1 e.2.1 e.2.2) st props =
        (true, definePairs targetRef st
          ((props.filter (fun e => e.2.1.enumerable && !isInternalName e.1 &&
              !excludesName none e.1)).map
            (fun e => (Sum.inr e.1, src0.getNamedValue e.1)))) := by
  induction props with
  | nil => intro st hsrc; rfl
  | cons hd tl ih =>
    intro st hsrc
    obtain ⟨s, flags, v⟩ := hd
    simp only [forEachWhile]
    by_cases hen : flags.enumerable = true
    · by_cases hint : isInternalName s = true
      · have hcb : copyDataNamedCB targetRef sourceRef none st s flags v =
            (true, st) := by
          simp [copyDataNamedCB, hen, hint]
        have hfil : (flags.enumerable && !isInternalName s &&
            !excludesName none s) = false := by simp [hint]
        simp only [hcb, List.filter_cons, hfil, Bool.false_eq_true, if_false]
        exact ih st hsrc
      · have hcb : copyDataNamedCB targetRef sourceRef none st s flags v =
            (true, st.updateObj targetRef
              (fun o => o.defineNamed s defaultNewPropFlags
                (src0.getNamedValue s))) := by
          simp [copyDataNamedCB, hen, hint, hsrc]
        have hfil : (flags.enumerable && !isInternalName s &&
            !excludesName none s) = true := by
          simp [hen, Bool.eq_false_iff.mpr hint, excludesName]
        simp only [hcb, List.filter_cons, hfil, if_true, List.map_cons,
          definePairs]
        exact ih _ (by rw [RTState.getObj_updateObj_ne st _ hne]; exact hsrc)
    · have hcb : copyDataNamedCB targetRef sourceRef none st s flags v =
          (true, st) := by
        simp only [copyDataNamedCB]
        rw [if_pos (by simp [Bool.eq_false_iff.mpr hen])]
      have hfil : (flags.enumerable && !isInternalName s &&
          !excludesName none s) = false := by
        simp [Bool.eq_false_iff.mpr hen]
      simp only [hcb, List.filter_cons, hfil, Bool.false_eq_true, if_false]
      exact ih st hsrc

/-- The named visitor of `copyDataProperties` with an exclusion object. -/
theorem copyDataNamedPassSome (targetRef sourceRef x : Nat)
    (src0 ex0 : ObjData) (hne : sourceRef ≠ targetRef)
    (hxne : x ≠ targetRef) (props : List (String × PropFlags × JSValue)) :
    ∀ (st : RTState), st.getObj sourceRef = src0 → st.getObj x = ex0 →
      forEachWhile
          (fun s e => copyDataNamedCB targetRef sourceRef (some x)
            s e.1 e.2.1 e.2.2) st props =
        (true, definePairs targetRef st
          ((props.filter (fun e => e.2.1.enumerable && !isInternalName e.1 &&
              !excludesName (some ex0) e.1)).map
            (fun e => (Sum.inr e.1, src0.getNamedValue e.1)))) := by
  induction props with
  | nil => intro st hsrc hx; rfl
  | cons hd tl ih =>
    intro st hsrc hx
    obtain ⟨s, flags, v⟩ := hd
    simp only [forEachWhile]
    by_cases hen : flags.enumerable = true
    · by_cases hint : isInternalName s = true
      · have hcb : copyDataNamedCB targetRef sourceRef (some x) st s flags v =
            (true, st) := by
          simp [copyDataNamedCB, hen, hint]
        have hfil : (flags.enumerable && !isInternalName s &&
            !excludesName (some ex0) s) = false := by simp [hint]
        simp only [hcb, List.filter_cons, hfil, Bool.false_eq_true, if_false]
        exact ih st hsrc hx
      · by_cases hskip : ex0.hasNamed s = true
        · have hcb : copyDataNamedCB targetRef sourceRef (some x) st s flags v =
              (true, st) := by
            simp [copyDataNamedCB, hen, hint, hx, hskip]
          have hfil : (flags.enumerable && !isInternalName s &&
              !excludesName (some ex0) s) = false := by
            simp [excludesName, hskip]
          simp only [hcb, List.filter_cons, hfil, Bool.false_eq_true, if_false]
          exact ih st hsrc hx
        · have hcb : copyDataNamedCB targetRef sourceRef (some x) st s flags v =
              (true, st.updateObj targetRef
                (fun o => o.defineNamed s defaultNewPropFlags
                  (src0.getNamedValue s))) := by
            simp [copyDataNamedCB, hen, hint, hx, hskip, hsrc]
          have hfil : (flags.enumerable && !isInternalName s &&
              !excludesName (some ex0) s) = true := by
            simp [hen, Bool.eq_false_iff.mpr hint, excludesName,
              Bool.eq_false_iff.mpr hskip]
          simp only [hcb, List.filter_cons, hfil, if_true, List.map_cons,
            definePairs]
          refine ih _
            (by rw [RTState.getObj_updateObj_ne st _ hne]; exact hsrc)
            (by rw [RTState.getObj_updateObj_ne st _ hxne]; exact hx)
    · have hcb : copyDataNamedCB targetRef sourceRef (some x) st s flags v =
          (true, st) := by
        simp only [copyDataNamedCB]
        rw [if_pos (by simp [Bool.eq_false_iff.mpr hen])]
      have hfil : (flags.enumerable && !isInternalName s &&
          !excludesName (some ex0) s) = false := by
        simp [Bool.eq_false_iff.mpr hen]
      simp only [hcb, List.filter_cons, hfil, Bool.false_eq_true, if_false]
      exact ih st hsrc hx

/-- Composition of the two passes of `forEachOwnPropertyWhile` when
neither aborts. -/
theorem forEachOwnPropertyWhile_eq (o : ObjData) {σ : Type}
    (icb : σ → Nat → PropFlags → JSValue → Bool × σ)
    (ncb : σ → String → PropFlags → JSValue → Bool × σ) (s s1 s2 : σ)
    (h1 : forEachWhile (fun s e => icb s e.1 e.2.1 e.2.2) s o.indexedProps =
      (true, s1))
    (h2 : forEachWhile (fun s e => ncb s e.1 e.2.1 e.2.2) s1 o.namedProps =
      (true, s2)) :
    forEachOwnPropertyWhile o icb ncb s = (true, s2) := by
  simp only [forEachOwnPropertyWhile, h1, h2]

/-- C3: `copyDataProperties` visits the source's own enumerable
properties in order (indexed ascending, then named in definition order,
internal names skipped), skips every key that is an own key of the
exclusion object, defines each remaining key on the target with
writable, enumerable and configurable all true (reading the value from
the source), and returns the target. -/
theorem copyDataProperties_spec (st : RTState) (targetRef sourceRef x : Nat)
    (hne : sourceRef ≠ targetRef) (hxne : x ≠ targetRef) :
    hermesBuiltinCopyDataProperties st [.obj targetRef, .obj sourceRef, .obj x] =
      (.ok (.obj targetRef),
        definePairs targetRef st
          (copiedPairs (st.getObj sourceRef) (some (st.getObj x)))) := by
  have hrun := forEachOwnPropertyWhile_eq (st.getObj sourceRef)
    (copyDataIndexedCB targetRef sourceRef (some x))
    (copyDataNamedCB targetRef sourceRef (some x)) st _ _
    (copyDataIndexedPassSome targetRef sourceRef x (st.getObj sourceRef)
      (st.getObj x) hne hxne (st.getObj sourceRef).indexedProps st rfl rfl)
    (copyDataNamedPassSome targetRef sourceRef x (st.getObj sourceRef)
      (st.getObj x) hne hxne (st.getObj sourceRef).namedProps _
      (getObj_definePairs_ne targetRef _ st sourceRef hne)
      (getObj_definePairs_ne targetRef _ st x hxne))
  show (match forEachOwnPropertyWhile (st.getObj sourceRef)
      (copyDataIndexedCB targetRef sourceRef (some x))
      (copyDataNamedCB targetRef sourceRef (some x)) st with
    | (true, st2) => ((.ok (.obj targetRef) : Except JSError JSValue), st2)
    | (false, st2) => (.error (.thrown JSValue.undefined), st2)) = _
  rw [hrun]
  simp only [copiedPairs, excludesIdx, excludesName]
  rw [definePairs_append]

/-- Witness for C3 at the claim's example: target `{}`, source
`{a:1, b:2, c:3}`, excluded `{b:1}` — the operation returns the target,
whose own properties afterwards are exactly `a` then `c` with default
new-property flags. -/
theorem copyDataProperties_spec_witness :
    (hermesBuiltinCopyDataProperties cdpExampleState
        [.obj 0, .obj 1, .obj 2] =
      (.ok (.obj 0),
        definePairs 0 cdpExampleState
          (copiedPairs (cdpExampleState.getObj 1)
            (some (cdpExampleState.getObj 2))))) ∧
    ((definePairs 0 cdpExampleState
        (copiedPairs (cdpExampleState.getObj 1)
          (some (cdpExampleState.getObj 2)))).getObj 0).namedProps =
      [("a", defaultNewPropFlags, JSValue.num 1),
       ("c", defaultNewPropFlags, JSValue.num 3)] :=
  ⟨copyDataProperties_spec cdpExampleState 0 1 2 (by decide) (by decide),
   by decide⟩

/-- A single indexed define at a fresh index past every existing one, on
an array large enough that `length` does not grow: it appends the new
entry. -/
theorem defineElem_getObj (st : RTState) (r i : Nat) (f : PropFlags)
    (v : JSValue) (hv : r < st.objects.length)
    (hk : ∀ p ∈ (st.getObj r).indexedProps, p.1 < i)
    (hl : i < (st.getObj r).lengthValue) :
    (st.updateObj r (fun o => o.defineIndexed i f v)).getObj r =
      { st.getObj r with
        indexedProps := (st.getObj r).indexedProps ++ [(i, f, v)] } := by
  rw [RTState.getObj_updateObj_self _ _ _ hv]
  have hc : ¬ ((st.getObj r).lengthValue ≤ i) := by omega
  simp [ObjData.defineIndexed, hc, setIndexed_append _ _ _ _ hk]

/-- The element-define loop of `getTemplateObject`: starting from states
whose two arrays hold only indices below `i` and whose lengths cover the
whole range, it appends the cooked strings to the template object and
the raw strings to the raw object, touching nothing else. -/
theorem setTemplateElements_spec (tmplRef rawRef : Nat) (args : List JSValue)
    (cookedBegin : Nat) (hne : tmplRef ≠ rawRef) (k : Nat) :
    ∀ (st : RTState) (i : Nat),
      tmplRef < st.objects.length → rawRef < st.objects.length →
      (∀ p ∈ (st.getObj tmplRef).indexedProps, p.1 < i) →
      (∀ p ∈ (st.getObj rawRef).indexedProps, p.1 < i) →
      i + k ≤ (st.getObj tmplRef).lengthValue →
      i + k ≤ (st.getObj rawRef).lengthValue →
      ((setTemplateElements tmplRef rawRef args cookedBegin st i k).getObj
          tmplRef =
        { st.getObj tmplRef with
          indexedProps := (st.getObj tmplRef).indexedProps ++
            (List.range' i k).map (fun j =>
              (j, constElementFlags, getArg args (cookedBegin + j))) } ∧
      (setTemplateElements tmplRef rawRef args cookedBegin st i k).getObj
          rawRef =
        { st.getObj rawRef with
          indexedProps := (st.getObj rawRef).indexedProps ++
            (List.range' i k).map (fun j =>
              (j, constElementFlags, getArg args (2 + j))) } ∧
      (∀ r, r ≠ tmplRef → r ≠ rawRef →
        (setTemplateElements tmplRef rawRef args cookedBegin st i k).getObj r =
          st.getObj r) ∧
      (setTemplateElements tmplRef rawRef args cookedBegin st i
          k).objects.length = st.objects.length ∧
      (setTemplateElements tmplRef rawRef args cookedBegin st i
          k).templateCache = st.templateCache) := by
  induction k with
  | zero =>
    intro st i hv1 hv2 hk1 hk2 hl1 hl2
    refine ⟨?_, ?_, fun r _ _ => rfl, rfl, rfl⟩ <;>
      simp [setTemplateElements]
  | succ k ih =>
    intro st i hv1 hv2 hk1 hk2 hl1 hl2
    have hT1 := defineElem_getObj st tmplRef i constElementFlags
      (getArg args (cookedBegin + i)) hv1 hk1 (by omega)
    have hR1 : (st.updateObj tmplRef (fun o => o.defineIndexed i
        constElementFlags (getArg args (cookedBegin + i)))).getObj rawRef =
        st.getObj rawRef :=
      RTState.getObj_updateObj_ne st _ (Ne.symm hne)
    have hlen1 := RTState.objects_updateObj_length st tmplRef
      (fun o => o.defineIndexed i constElementFlags
        (getArg args (cookedBegin + i)))
    have hR2 := defineElem_getObj
      (st.updateObj tmplRef (fun o => o.defineIndexed i constElementFlags
        (getArg args (cookedBegin + i)))) rawRef i constElementFlags
      (getArg args (2 + i)) (by rw [hlen1]; exact hv2)
      (by rw [hR1]; exact hk2) (by rw [hR1]; omega)
    have hT2 : ((st.updateObj tmplRef (fun o => o.defineIndexed i
          constElementFlags (getArg args (cookedBegin + i)))).updateObj rawRef
          (fun o => o.defineIndexed i constElementFlags
            (getArg args (2 + i)))).getObj tmplRef =
        (st.updateObj tmplRef (fun o => o.defineIndexed i constElementFlags
          (getArg args (cookedBegin + i)))).getObj tmplRef :=
      RTState.getObj_updateObj_ne _ _ hne
    have hlen2 := RTState.objects_updateObj_length
      (st.updateObj tmplRef (fun o => o.defineIndexed i constElementFlags
        (getArg args (cookedBegin + i)))) rawRef
      (fun o => o.defineIndexed i constElementFlags (getArg args (2 + i)))
    obtain ⟨ihT, ihR, ihO, ihL, ihC⟩ := ih
      ((st.updateObj tmplRef (fun o => o.defineIndexed i constElementFlags
        (getArg args (cookedBegin + i)))).updateObj rawRef
        (fun o => o.defineIndexed i constElementFlags (getArg args (2 + i))))
      (i + 1)
      (by rw [hlen2, hlen1]; exact hv1)
      (by rw [hlen2, hlen1]; exact hv2)
      (by
        rw [hT2, hT1]
        intro p hp
        rcases List.mem_append.mp hp with hmem | hmem
        · exact Nat.lt_succ_of_lt (hk1 p hmem)
        · rw [List.mem_singleton] at hmem
          rw [hmem]
          exact Nat.lt_succ_self i)
      (by
        rw [hR2, hR1]
        intro p hp
        rcases List.mem_append.mp hp with hmem | hmem
        · exact Nat.lt_succ_of_lt (hk2 p hmem)
        · rw [List.mem_singleton] at hmem
          rw [hmem]
          exact Nat.lt_succ_self i)
      (by rw [hT2, hT1]; simpa using (by omega :
        (i + 1) + k ≤ (st.getObj tmplRef).lengthValue))
      (by rw [hR2, hR1]; simpa using (by omega :
        (i + 1) + k ≤ (st.getObj rawRef).lengthValue))
    have hstep : setTemplateElements tmplRef rawRef args cookedBegin st i
        (k + 1) =
        setTemplateElements tmplRef rawRef args cookedBegin
          ((st.updateObj tmplRef (fun o => o.defineIndexed i constElementFlags
            (getArg args (cookedBegin + i)))).updateObj rawRef
            (fun o => o.defineIndexed i constElementFlags
              (getArg args (2 + i)))) (i + 1) k := rfl
    refine ⟨?_, ?_, ?_, ?_, ?_⟩
    · rw [hstep, ihT, hT2, hT1]
      have hlist : ((st.getObj tmplRef).indexedProps ++
            [(i, constElementFlags, getArg args (cookedBegin + i))]) ++
            (List.range' (i + 1) k).map (fun j =>
              (j, constElementFlags, getArg args (cookedBegin + j))) =
          (st.getObj tmplRef).indexedProps ++
            (List.range' i (k + 1)).map (fun j =>
              (j, constElementFlags, getArg args (cookedBegin + j))) := by
        rw [List.append_assoc, List.range'_succ, List.map_cons,
          List.singleton_append]
      simp [hlist]
    · rw [hstep, ihR, hR2, hR1]
      have hlist : ((st.getObj rawRef).indexedProps ++
            [(i, constElementFlags, getArg args (2 + i))]) ++
            (List.range' (i + 1) k).map (fun j =>
              (j, constElementFlags, getArg args (2 + j))) =
          (st.getObj rawRef).indexedProps ++
            (List.range' i (k + 1)).map (fun j =>
              (j, constElementFlags, getArg args (2 + j))) := by
        rw [List.append_assoc, List.range'_succ, List.map_cons,
          List.singleton_append]
      simp [hlist]
    · intro r hr1 hr2
      rw [hstep, ihO r hr1 hr2, RTState.getObj_updateObj_ne _ _ hr2,
        RTState.getObj_updateObj_ne _ _ hr1]
    · rw [hstep, ihL, hlen2, hlen1]
    · rw [hstep, ihC]
      rfl

/-- Projections of `cacheTemplateObject`. -/
theorem getObj_cacheTemplateObject (st : RTState) (m id r r' : Nat) :
    (st.cacheTemplateObject m id r).getObj r' = st.getObj r' := rfl

theorem objects_cacheTemplateObject_length (st : RTState) (m id r : Nat) :
    (st.cacheTemplateObject m id r).objects.length = st.objects.length := rfl

theorem templateCache_cacheTemplateObject (st : RTState) (m id r : Nat) :
    (st.cacheTemplateObject m id r).templateCache =
      ((m, id), r) :: st.templateCache := rfl

/-- The construction path of `getTemplateObject`, fully characterized:
with a well-typed dup flag and valid raw/cooked pairing it allocates the
raw array (reference = old heap size) and the template object
(reference = old heap size + 1), fills index `j` of the raw object with
`args[2 + j]` and index `j` of the template object with
`args[cookedBegin + j]` under {writable=0, configurable=0, enumerable=1},
freezes both (`length` read-only, non-extensible), attaches `raw` as
{writable=0, configurable=0, enumerable=0}, caches the template object
under `(m, id)`, and touches no pre-existing object.  `count` and
`cookedBegin` are the element count and cooked-string offset the code
computes from `dup`, supplied here through defining equations. -/
theorem constructTemplateObject_spec (st : RTState) (m id : Nat)
    (args : List JSValue) (dup : Bool) (count cookedBegin : Nat)
    (hdup : getArg args 1 = .bool dup)
    (hpar : (!dup && args.length % 2 == 1) = false)
    (hcount : (if dup then args.length - 2 else args.length / 2 - 1) = count)
    (hcb : (if dup then 2 else 2 + count) = cookedBegin) :
    (constructTemplateObject st m id args).1 =
      .ok (.obj (st.objects.length + 1)) ∧
    (constructTemplateObject st m id args).2.getObj (st.objects.length + 1) =
      { indexedProps := (List.range' 0 count).map
          (fun j => (j, constElementFlags, getArg args (cookedBegin + j))),
        namedProps := [("raw", rawPropFlags, .obj st.objects.length)],
        lengthValue := count,
        lengthWritable := false, lengthConfigurable := false,
        extensible := false, isArray := true, isCallable := false,
        isGenerator := false, isDelegated := false } ∧
    (constructTemplateObject st m id args).2.getObj st.objects.length =
      { indexedProps := (List.range' 0 count).map
          (fun j => (j, constElementFlags, getArg args (2 + j))),
        namedProps := [],
        lengthValue := count,
        lengthWritable := false, lengthConfigurable := false,
        extensible := false, isArray := true, isCallable := false,
        isGenerator := false, isDelegated := false } ∧
    (∀ r, r < st.objects.length →
      (constructTemplateObject st m id args).2.getObj r = st.getObj r) ∧
    (constructTemplateObject st m id args).2.objects.length =
      st.objects.length + 2 ∧
    (constructTemplateObject st m id args).2.templateCache =
      ((m, id), st.objects.length + 1) :: st.templateCache := by
  have hne : st.objects.length + 1 ≠ st.objects.length := by omega
  have hC : constructTemplateObject st m id args =
      (.ok (.obj (st.objects.length + 1)),
        ((((setTemplateElements (st.objects.length + 1) st.objects.length args
            cookedBegin
            ((st.alloc { lengthValue := count, isArray := true }).2.alloc
              { lengthValue := count, isArray := true }).2
            0 count).updateObj st.objects.length
            (fun o => o.makeLengthReadOnly.preventExtensionsOf)).updateObj
            (st.objects.length + 1)
            (fun o => o.defineNamed "raw" rawPropFlags
              (.obj st.objects.length))).updateObj (st.objects.length + 1)
            (fun o => o.makeLengthReadOnly.preventExtensionsOf)
          ).cacheTemplateObject m id (st.objects.length + 1)) := by
    simp only [constructTemplateObject, hdup, JSValue.getBool, hcount, hcb,
      JSArrayCreate, RTState.alloc, List.length_append, List.length_cons,
      List.length_nil]
    rw [if_neg (by simp [hpar])]
  have hC1 : (constructTemplateObject st m id args).1 =
      .ok (.obj (st.objects.length + 1)) := by rw [hC]
  have hC2 : (constructTemplateObject st m id args).2 =
      ((((setTemplateElements (st.objects.length + 1) st.objects.length args
          cookedBegin
          ((st.alloc { lengthValue := count, isArray := true }).2.alloc
            { lengthValue := count, isArray := true }).2
          0 count).updateObj st.objects.length
          (fun o => o.makeLengthReadOnly.preventExtensionsOf)).updateObj
          (st.objects.length + 1)
          (fun o => o.defineNamed "raw" rawPropFlags
            (.obj st.objects.length))).updateObj (st.objects.length + 1)
          (fun o => o.makeLengthReadOnly.preventExtensionsOf)
        ).cacheTemplateObject m id (st.objects.length + 1) := by rw [hC]
  have hAlen :
      (st.alloc { lengthValue := count, isArray := true } :
        Nat × RTState).2.objects.length = st.objects.length + 1 :=
    RTState.objects_alloc_length st _
  have hB_t : ((st.alloc { lengthValue := count, isArray := true }).2.alloc
      { lengthValue := count, isArray := true }).2.getObj
        (st.objects.length + 1) =
      { lengthValue := count, isArray := true } := by
    have h := RTState.getObj_alloc_self
      (st.alloc { lengthValue := count, isArray := true }).2
      { lengthValue := count, isArray := true }
    rwa [hAlen] at h
  have hB_r : ((st.alloc { lengthValue := count, isArray := true }).2.alloc
      { lengthValue := count, isArray := true }).2.getObj st.objects.length =
      { lengthValue := count, isArray := true } := by
    rw [RTState.getObj_alloc_lt _ _ (by rw [hAlen]; omega)]
    exact RTState.getObj_alloc_self st _
  have hBlen : ((st.alloc { lengthValue := count, isArray := true }).2.alloc
      { lengthValue := count, isArray := true }).2.objects.length =
      st.objects.length + 2 := by
    rw [RTState.objects_alloc_length, hAlen]
  obtain ⟨h3t, h3r, h3o, h3len, h3cache⟩ :=
    setTemplateElements_spec (st.objects.length + 1) st.objects.length args
      cookedBegin hne count
      ((st.alloc { lengthValue := count, isArray := true }).2.alloc
        { lengthValue := count, isArray := true }).2 0
      (by rw [hBlen]; omega) (by rw [hBlen]; omega)
      (by rw [hB_t]; intro p hp; simp at hp)
      (by rw [hB_r]; intro p hp; simp at hp)
      (by rw [hB_t]; simp) (by rw [hB_r]; simp)
  rw [hB_t] at h3t
  rw [hB_r] at h3r
  have h3v : st.objects.length <
      (setTemplateElements (st.objects.length + 1) st.objects.length args
        cookedBegin
        ((st.alloc { lengthValue := count, isArray := true }).2.alloc
          { lengthValue := count, isArray := true }).2 0
        count).objects.length := by
    rw [h3len, hBlen]; omega
  have h3v' : st.objects.length + 1 <
      (setTemplateElements (st.objects.length + 1) st.objects.length args
        cookedBegin
        ((st.alloc { lengthValue := count, isArray := true }).2.alloc
          { lengthValue := count, isArray := true }).2 0
        count).objects.length := by
    rw [h3len, hBlen]; omega
  refine ⟨hC1, ?_, ?_, ?_, ?_, ?_⟩
  · rw [hC2, getObj_cacheTemplateObject,
      RTState.getObj_updateObj_self _ _ _ (by
        rw [RTState.objects_updateObj_length, RTState.objects_updateObj_length]
        exact h3v'),
      RTState.getObj_updateObj_self _ _ _ (by
        rw [RTState.objects_updateObj_length]
        exact h3v'),
      RTState.getObj_updateObj_ne _ _ hne, h3t]
    simp [ObjData.defineNamed, setNamed, ObjData.makeLengthReadOnly,
      ObjData.preventExtensionsOf]
  · rw [hC2, getObj_cacheTemplateObject,
      RTState.getObj_updateObj_ne _ _ (Ne.symm hne),
      RTState.getObj_updateObj_ne _ _ (Ne.symm hne),
      RTState.getObj_updateObj_self _ _ _ h3v, h3r]
    simp [ObjData.makeLengthReadOnly, ObjData.preventExtensionsOf]
  · intro r hr
    rw [hC2, getObj_cacheTemplateObject,
      RTState.getObj_updateObj_ne _ _ (by omega : r ≠ st.objects.length + 1),
      RTState.getObj_updateObj_ne _ _ (by omega : r ≠ st.objects.length + 1),
      RTState.getObj_updateObj_ne _ _ (by omega : r ≠ st.objects.length),
      h3o r (by omega) (by omega),
      RTState.getObj_alloc_lt _ _ (by rw [hAlen]; omega),
      RTState.getObj_alloc_lt _ _ hr]
  · rw [hC2, objects_cacheTemplateObject_length,
      RTState.objects_updateObj_length, RTState.objects_updateObj_length,
      RTState.objects_updateObj_length, h3len, hBlen]
  · rw [hC2, templateCache_cacheTemplateObject,
      RTState.templateCache_updateObj, RTState.templateCache_updateObj,
      RTState.templateCache_updateObj, h3cache]
    rfl

/-- Cache hit: with well-typed fixed arguments and the id present in the
module's cache, `getTemplateObject` returns the cached reference with the
state unchanged. -/
theorem getTemplateObject_hit (st : RTState) (m r : Nat) (args : List JSValue)
    (hlen : 3 ≤ args.length) (hnum : (getArg args 0).isNumber = true)
    (hbool : (getArg args 1).isBool = true)
    (hhit : st.findCachedTemplateObject m
      (truncateToUInt32 (getArg args 0).getNumber) = some r) :
    hermesBuiltinGetTemplateObject st (some m) args = (.ok (.obj r), st) := by
  simp only [hermesBuiltinGetTemplateObject]
  rw [if_neg (by omega), if_neg (by simp [hnum]), if_neg (by simp [hbool])]
  simp only [hhit]

/-- Cache miss: with well-typed fixed arguments, `getTemplateObject`
reduces to the construction path. -/
theorem getTemplateObject_miss (st : RTState) (m : Nat) (args : List JSValue)
    (hlen : 3 ≤ args.length) (hnum : (getArg args 0).isNumber = true)
    (hbool : (getArg args 1).isBool = true)
    (hmiss : st.findCachedTemplateObject m
      (truncateToUInt32 (getArg args 0).getNumber) = none) :
    hermesBuiltinGetTemplateObject st (some m) args =
      constructTemplateObject st m
        (truncateToUInt32 (getArg args 0).getNumber) args := by
  simp only [hermesBuiltinGetTemplateObject]
  rw [if_neg (by omega), if_neg (by simp [hnum]), if_neg (by simp [hbool])]
  simp only [hmiss]

/-- A successful call implies the three fixed-argument checks passed. -/
theorem getTemplateObject_ok_inv (st st' : RTState) (m : Nat)
    (args : List JSValue) (v : JSValue)
    (h : hermesBuiltinGetTemplateObject st (some m) args = (.ok v, st')) :
    3 ≤ args.length ∧ (getArg args 0).isNumber = true ∧
      (getArg args 1).isBool = true := by
  simp only [hermesBuiltinGetTemplateObject] at h
  split_ifs at h with h1 h2 h3
  · simp at h
  · simp at h
  · simp at h
  · refine ⟨by omega, ?_, ?_⟩
    · cases hx : (getArg args 0).isNumber with
      | true => rfl
      | false => rw [hx] at h2; simp at h2
    · cases hx : (getArg args 1).isBool with
      | true => rfl
      | false => rw [hx] at h3; simp at h3

/-- A successful call implies the dup flag is a bool. -/
theorem getTemplateObject_ok_dup (st st' : RTState) (m : Nat)
    (args : List JSValue) (v : JSValue)
    (h : hermesBuiltinGetTemplateObject st (some m) args = (.ok v, st')) :
    ∃ dup, getArg args 1 = .bool dup := by
  obtain ⟨_, _, hbool⟩ := getTemplateObject_ok_inv st st' m args v h
  cases hb : getArg args 1 with
  | bool b => exact ⟨b, rfl⟩
  | undefined => rw [hb] at hbool; simp [JSValue.isBool] at hbool
  | null => rw [hb] at hbool; simp [JSValue.isBool] at hbool
  | num n => rw [hb] at hbool; simp [JSValue.isBool] at hbool
  | str s => rw [hb] at hbool; simp [JSValue.isBool] at hbool
  | obj r => rw [hb] at hbool; simp [JSValue.isBool] at hbool

/-- A successful call that missed the cache went through construction:
the dup flag is well-typed, the raw/cooked pairing was valid, the
returned reference is the fresh template-object reference, the heap grew
by the two new arrays, and the final state is the construction state. -/
theorem getTemplateObject_miss_ok (st st' : RTState) (m r : Nat)
    (args : List JSValue)
    (hmiss : st.findCachedTemplateObject m
      (truncateToUInt32 (getArg args 0).getNumber) = none)
    (h : hermesBuiltinGetTemplateObject st (some m) args =
      (.ok (.obj r), st')) :
    ∃ dup, getArg args 1 = .bool dup ∧
      (!dup && args.length % 2 == 1) = false ∧
      r = st.objects.length + 1 ∧
      st'.objects.length = st.objects.length + 2 ∧
      st' = (constructTemplateObject st m
        (truncateToUInt32 (getArg args 0).getNumber) args).2 := by
  obtain ⟨hlen, hnum, hbool⟩ := getTemplateObject_ok_inv st st' m args _ h
  obtain ⟨dup, hdup⟩ := getTemplateObject_ok_dup st st' m args _ h
  rw [getTemplateObject_miss st m args hlen hnum hbool hmiss] at h
  by_cases hpar : (!dup && args.length % 2 == 1) = true
  · rw [show constructTemplateObject st m
        (truncateToUInt32 (getArg args 0).getNumber) args =
        (.error (.typeError
          "There must be the same number of raw and cooked strings."), st) by
      simp only [constructTemplateObject, hdup, JSValue.getBool]
      rw [if_pos hpar]] at h
    simp at h
  · have hparf : (!dup && args.length % 2 == 1) = false :=
      Bool.eq_false_iff.mpr hpar
    obtain ⟨hc1, _, _, _, hclen, _⟩ := constructTemplateObject_spec st m
      (truncateToUInt32 (getArg args 0).getNumber) args dup
      (if dup then args.length - 2 else args.length / 2 - 1)
      (if dup then 2 else 2 +
        (if dup then args.length - 2 else args.length / 2 - 1))
      hdup hparf rfl rfl
    have hfst := congrArg Prod.fst h
    rw [hc1] at hfst
    have hsnd := congrArg Prod.snd h
    simp at hfst
    have hst' : st' = (constructTemplateObject st m
        (truncateToUInt32 (getArg args 0).getNumber) args).2 := hsnd.symm
    refine ⟨dup, hdup, hparf, by omega, ?_, hst'⟩
    rw [hst']
    exact hclen

/-- After any successful call returning an object, that object is cached
for this call's (module, id) in the final state. -/
theorem getTemplateObject_ok_cached (st st' : RTState) (m r : Nat)
    (args : List JSValue)
    (h : hermesBuiltinGetTemplateObject st (some m) args =
      (.ok (.obj r), st')) :
    st'.findCachedTemplateObject m
      (truncateToUInt32 (getArg args 0).getNumber) = some r := by
  obtain ⟨hlen, hnum, hbool⟩ := getTemplateObject_ok_inv st st' m args _ h
  cases hfind : st.findCachedTemplateObject m
      (truncateToUInt32 (getArg args 0).getNumber) with
  | some c =>
    rw [getTemplateObject_hit st m c args hlen hnum hbool hfind] at h
    simp only [Prod.mk.injEq] at h
    obtain ⟨hcr, hst⟩ := h
    simp only [Except.ok.injEq, JSValue.obj.injEq] at hcr
    rw [← hst, hfind, hcr]
  | none =>
    obtain ⟨dup, hdup, hparf, hr, _, hst'⟩ :=
      getTemplateObject_miss_ok st st' m r args hfind h
    obtain ⟨_, _, _, _, _, hcache⟩ := constructTemplateObject_spec st m
      (truncateToUInt32 (getArg args 0).getNumber) args dup
      (if dup then args.length - 2 else args.length / 2 - 1)
      (if dup then 2 else 2 +
        (if dup then args.length - 2 else args.length / 2 - 1))
      hdup hparf rfl rfl
    rw [hst']
    simp only [RTState.findCachedTemplateObject, hcache]
    rw [List.find?_cons_of_pos _ (by simp)]
    simp [hr]

/-- C1: for a (module, call-site id) pair, at most one template object is
ever constructed: after a first, constructing call for some id returned
object `r`, any later call with the same module and id — even with
different literal arguments — returns the reference-identical object `r`
with the state unchanged, while a constructing call with a different
call-site id returns a distinct object. -/
theorem getTemplateObject_identity_distinct
    (st st' st3 : RTState) (m r r3 : Nat) (args1 args2 args3 : List JSValue)
    (hmiss1 : st.findCachedTemplateObject m
      (truncateToUInt32 (getArg args1 0).getNumber) = none)
    (h1 : hermesBuiltinGetTemplateObject st (some m) args1 =
      (.ok (.obj r), st'))
    (hlen2 : 3 ≤ args2.length)
    (hnum2 : (getArg args2 0).isNumber = true)
    (hbool2 : (getArg args2 1).isBool = true)
    (hid2 : truncateToUInt32 (getArg args2 0).getNumber =
      truncateToUInt32 (getArg args1 0).getNumber)
    (hid3 : truncateToUInt32 (getArg args3 0).getNumber ≠
      truncateToUInt32 (getArg args1 0).getNumber)
    (hmiss3 : st'.findCachedTemplateObject m
      (truncateToUInt32 (getArg args3 0).getNumber) = none)
    (h3 : hermesBuiltinGetTemplateObject st' (some m) args3 =
      (.ok (.obj r3), st3)) :
    hermesBuiltinGetTemplateObject st' (some m) args2 =
      (.ok (.obj r), st') ∧ r3 ≠ r := by
  have hcached := getTemplateObject_ok_cached st st' m r args1 h1
  constructor
  · apply getTemplateObject_hit st' m r args2 hlen2 hnum2 hbool2
    rw [hid2]
    exact hcached
  · obtain ⟨_, _, _, hr1, hgrow, _⟩ :=
      getTemplateObject_miss_ok st st' m r args1 hmiss1 h1
    obtain ⟨_, _, _, hr3, _, _⟩ :=
      getTemplateObject_miss_ok st' st3 m r3 args3 hmiss3 h3
    omega

/-- Witness for C1: constructing id 0 yields object 1; a second call for
id 0 with different literals returns object 1 and leaves the state
unchanged; a constructing call for id 1 yields object 3 ≠ 1. -/
theorem getTemplateObject_identity_distinct_witness :
    (hermesBuiltinGetTemplateObject tmplStateA (some 0) tmplArgsB =
      (.ok (.obj 1), tmplStateA)) ∧ (3 : Nat) ≠ 1 :=
  getTemplateObject_identity_distinct {} tmplStateA tmplStateC 0 1 3
    tmplArgsA tmplArgsB tmplArgsC
    (by decide) rfl (by decide) (by decide) (by decide) (by decide)
    (by decide) (by decide) rfl

/-- C2: after a successful non-cached call, every indexed element of the
template object and of its raw array is a data property with
writable=false, configurable=false, enumerable=true; the `raw` property
on the template object has writable=false, configurable=false,
enumerable=false; the `length` properties of both objects are
non-writable and non-configurable; and both objects are
non-extensible. -/
theorem getTemplateObject_frozen (st st' : RTState) (m r : Nat)
    (args : List JSValue)
    (hmiss : st.findCachedTemplateObject m
      (truncateToUInt32 (getArg args 0).getNumber) = none)
    (h : hermesBuiltinGetTemplateObject st (some m) args =
      (.ok (.obj r), st')) :
    (∀ p ∈ (st'.getObj r).indexedProps,
      p.2.1 = (⟨false, true, false⟩ : PropFlags)) ∧
    (st'.getObj r).lengthWritable = false ∧
    (st'.getObj r).lengthConfigurable = false ∧
    (st'.getObj r).extensible = false ∧
    ∃ rawRef,
      (st'.getObj r).namedProps =
        [("raw", (⟨false, false, false⟩ : PropFlags), JSValue.obj rawRef)] ∧
      (∀ p ∈ (st'.getObj rawRef).indexedProps,
        p.2.1 = (⟨false, true, false⟩ : PropFlags)) ∧
      (st'.getObj rawRef).lengthWritable = false ∧
      (st'.getObj rawRef).lengthConfigurable = false ∧
      (st'.getObj rawRef).extensible = false := by
  obtain ⟨dup, hdup, hparf, hr, _, hst'⟩ :=
    getTemplateObject_miss_ok st st' m r args hmiss h
  obtain ⟨_, ht, hraw, _, _, _⟩ := constructTemplateObject_spec st m
    (truncateToUInt32 (getArg args 0).getNumber) args dup
    (if dup then args.length - 2 else args.length / 2 - 1)
    (if dup then 2 else 2 +
      (if dup then args.length - 2 else args.length / 2 - 1))
    hdup hparf rfl rfl
  subst hst'
  subst hr
  refine ⟨?_, by rw [ht], by rw [ht], by rw [ht],
    st.objects.length, by rw [ht]; rfl, ?_, by rw [hraw], by rw [hraw],
    by rw [hraw]⟩
  · intro p hp
    rw [ht] at hp
    simp only [List.mem_map] at hp
    obtain ⟨j, _, hj⟩ := hp
    rw [← hj]
    rfl
  · intro p hp
    rw [hraw] at hp
    simp only [List.mem_map] at hp
    obtain ⟨j, _, hj⟩ := hp
    rw [← hj]
    rfl

/-- Witness for C2: the constructing call for id 0 — the template object
is reference 1 and its raw array reference 0; both are frozen as
claimed. -/
theorem getTemplateObject_frozen_witness :
    (∀ p ∈ (tmplStateA.getObj 1).indexedProps,
      p.2.1 = (⟨false, true, false⟩ : PropFlags)) ∧
    (tmplStateA.getObj 1).lengthWritable = false ∧
    (tmplStateA.getObj 1).lengthConfigurable = false ∧
    (tmplStateA.getObj 1).extensible = false ∧
    ∃ rawRef,
      (tmplStateA.getObj 1).namedProps =
        [("raw", (⟨false, false, false⟩ : PropFlags), JSValue.obj rawRef)] ∧
      (∀ p ∈ (tmplStateA.getObj rawRef).indexedProps,
        p.2.1 = (⟨false, true, false⟩ : PropFlags)) ∧
      (tmplStateA.getObj rawRef).lengthWritable = false ∧
      (tmplStateA.getObj rawRef).lengthConfigurable = false ∧
      (tmplStateA.getObj rawRef).extensible = false :=
  getTemplateObject_frozen {} tmplStateA 0 1 tmplArgsA (by decide) rfl

/-- C6 counterexample: the constructing call `getTemplateObject(0, true,
"a")` (dup set) builds a template object with exactly one indexed element
(n = 1), but the count of trailing arguments is 1 — not the claimed
`2n = 2`.  The trailing arguments are `n` raw strings when dup is set
(each reused as its cooked string), not `2n`. -/
theorem getTemplateObject_trailing_count_cex :
    (hermesBuiltinGetTemplateObject {} (some 0) tmplArgsA).1 =
      .ok (.obj 1) ∧
    ((hermesBuiltinGetTemplateObject {} (some 0) tmplArgsA).2.getObj
      1).indexedProps.length = 1 ∧
    tmplArgsA.length - 2 = 1 ∧
    ¬ (tmplArgsA.length - 2 = 2 * 1) :=
  ⟨rfl, by decide, by decide, by decide⟩

/-- C6 (amended): with well-typed fixed arguments and a cache miss,
`getTemplateObject` interprets its trailing arguments (those after the
call-site id and the dup flag) as `n` raw strings when dup is true, or
as `n` raw strings followed by `n` cooked strings (trailing count `2n`)
when dup is false, where `n` is the number of indexed elements of the
constructed template object; when dup is false and the count of trailing
arguments is odd, it raises a TypeError before constructing anything
(state unchanged). -/
theorem getTemplateObject_argument_shape (st : RTState) (m : Nat)
    (args : List JSValue) (dup : Bool)
    (hlen : 3 ≤ args.length) (hnum : (getArg args 0).isNumber = true)
    (hdup : getArg args 1 = .bool dup)
    (hmiss : st.findCachedTemplateObject m
      (truncateToUInt32 (getArg args 0).getNumber) = none) :
    (dup = true →
      ∃ st', hermesBuiltinGetTemplateObject st (some m) args =
          (.ok (.obj (st.objects.length + 1)), st') ∧
        (st'.getObj (st.objects.length + 1)).indexedProps.length =
          args.length - 2 ∧
        (st'.getObj st.objects.length).indexedProps =
          (List.range' 0 (args.length - 2)).map
            (fun j => (j, constElementFlags, getArg args (2 + j))) ∧
        (st'.getObj (st.objects.length + 1)).indexedProps =
          (List.range' 0 (args.length - 2)).map
            (fun j => (j, constElementFlags, getArg args (2 + j)))) ∧
    (dup = false → args.length % 2 = 0 →
      args.length - 2 = 2 * (args.length / 2 - 1) ∧
      ∃ st', hermesBuiltinGetTemplateObject st (some m) args =
          (.ok (.obj (st.objects.length + 1)), st') ∧
        (st'.getObj (st.objects.length + 1)).indexedProps.length =
          args.length / 2 - 1 ∧
        (st'.getObj st.objects.length).indexedProps =
          (List.range' 0 (args.length / 2 - 1)).map
            (fun j => (j, constElementFlags, getArg args (2 + j))) ∧
        (st'.getObj (st.objects.length + 1)).indexedProps =
          (List.range' 0 (args.length / 2 - 1)).map
            (fun j => (j, constElementFlags,
              getArg args (2 + (args.length / 2 - 1) + j)))) ∧
    (dup = false → args.length % 2 = 1 →
      hermesBuiltinGetTemplateObject st (some m) args =
        (.error (.typeError
          "There must be the same number of raw and cooked strings."), st)) := by
  have hbool : (getArg args 1).isBool = true := by rw [hdup]; rfl
  have hred := getTemplateObject_miss st m args hlen hnum hbool hmiss
  refine ⟨?_, ?_, ?_⟩
  · intro hd
    subst hd
    obtain ⟨hc1, ht, hraw, _, _, _⟩ := constructTemplateObject_spec st m
      (truncateToUInt32 (getArg args 0).getNumber) args true
      (args.length - 2) 2 hdup (by simp) (by simp) (by simp)
    refine ⟨(constructTemplateObject st m
      (truncateToUInt32 (getArg args 0).getNumber) args).2, ?_, ?_, ?_, ?_⟩
    · rw [hred]
      exact Prod.ext hc1 rfl
    · rw [ht]
      simp [List.length_range']
    · rw [hraw]
    · rw [ht]
  · intro hd heven
    subst hd
    obtain ⟨hc1, ht, hraw, _, _, _⟩ := constructTemplateObject_spec st m
      (truncateToUInt32 (getArg args 0).getNumber) args false
      (args.length / 2 - 1) (2 + (args.length / 2 - 1)) hdup
      (by simp [heven]) (by simp) (by simp)
    refine ⟨by omega, (constructTemplateObject st m
      (truncateToUInt32 (getArg args 0).getNumber) args).2, ?_, ?_, ?_, ?_⟩
    · rw [hred]
      exact Prod.ext hc1 rfl
    · rw [ht]
      simp [List.length_range']
    · rw [hraw]
    · rw [ht]
  · intro hd hodd
    subst hd
    rw [hred]
    simp only [constructTemplateObject, hdup, JSValue.getBool]
    rw [if_pos (by simp [hodd])]

/-- Witness for C6's amended theorem: a dup-unset call with one raw and
one cooked string (trailing count 2 = 2n with n = 1), and a dup-unset
call with an odd trailing count raising the pairing TypeError. -/
theorem getTemplateObject_argument_shape_witness :
    (tmplArgsD.length - 2 = 2 * (tmplArgsD.length / 2 - 1) ∧
      ∃ st', hermesBuiltinGetTemplateObject {} (some 0) tmplArgsD =
          (.ok (.obj 1), st') ∧
        (st'.getObj 1).indexedProps.length = tmplArgsD.length / 2 - 1 ∧
        (st'.getObj 0).indexedProps =
          (List.range' 0 (tmplArgsD.length / 2 - 1)).map
            (fun j => (j, constElementFlags, getArg tmplArgsD (2 + j))) ∧
        (st'.getObj 1).indexedProps =
          (List.range' 0 (tmplArgsD.length / 2 - 1)).map
            (fun j => (j, constElementFlags,
              getArg tmplArgsD (2 + (tmplArgsD.length / 2 - 1) + j)))) ∧
    (hermesBuiltinGetTemplateObject {} (some 0) tmplArgsE =
      (.error (.typeError
        "There must be the same number of raw and cooked strings."), {})) :=
  ⟨(getTemplateObject_argument_shape {} 0 tmplArgsD false (by decide)
      (by decide) rfl (by decide)).2.1 rfl (by decide),
   (getTemplateObject_argument_shape {} 0 tmplArgsE false (by decide)
      (by decide) rfl (by decide)).2.2 rfl (by decide)⟩

end HermesVM
